import Mathlib

/-!
Shallow embedding of the BU Trift marketplace backend (`backend/main.py`):
the item availability ledger, the buy-request engine, the transaction engine
and the review ledger, together with proofs about the lifecycle claims.

Modelling conventions:
* SQLAlchemy tables are Lean lists in insertion order; `query(...).first()`
  followed by a field assignment is `updateFirst`, `query(...).all()` followed
  by a mutation loop is `List.map` with the filter folded into the function.
* `HTTPException(status_code, detail)` is an `Exc := Nat × String` value and a
  handler is a pure function `... → Except Exc DB`; `db.rollback()` on error
  corresponds to returning the error without a new state.
* A `try` block whose `except Exception` clause re-raises a 500 wraps any
  `HTTPException` raised inside it (FastAPI's `HTTPException` is an
  `Exception`), with `str(e)` rendered as `"<code>: <detail>"`.
* server-side `datetime.now()` is an abstract tick `now : Nat`;
  `datetime.fromisoformat` on a client instant string is modelled as the
  string itself (claims never depend on parse failure).
* generated UUIDs are explicit `new...Id` arguments.
-/

namespace BuTrift

inductive ItemStatus
  | available
  | reserved
  | sold
deriving DecidableEq, Repr

inductive ReqStatus
  | pending
  | accepted
  | rejected
  | cancelled
deriving DecidableEq, Repr

inductive TxStatus
  | in_progress
  | completed
  | cancelled
deriving DecidableEq, Repr

def itemStatusStr : ItemStatus → String
  | .available => "available"
  | .reserved => "reserved"
  | .sold => "sold"

def reqStatusStr : ReqStatus → String
  | .pending => "pending"
  | .accepted => "accepted"
  | .rejected => "rejected"
  | .cancelled => "cancelled"

def txStatusStr : TxStatus → String
  | .in_progress => "in_progress"
  | .completed => "completed"
  | .cancelled => "cancelled"

structure Item where
  id : String
  title : String
  seller_id : String
  status : ItemStatus
deriving DecidableEq, Repr

structure User where
  id : String
  rating : ℚ
  total_sales : Nat
deriving DecidableEq, Repr

structure Conversation where
  id : String
  participant1_id : String
  participant2_id : String
  item_id : String
  last_message_at : Option Nat
deriving DecidableEq, Repr

structure Message where
  id : String
  conversation_id : String
  sender_id : String
  content : String
  message_type : String
  buy_request_id : Option String
  is_read : Bool
deriving DecidableEq, Repr

structure BuyRequest where
  id : String
  item_id : String
  buyer_id : String
  seller_id : String
  conversation_id : String
  status : ReqStatus
  responded_date : Option Nat
deriving DecidableEq, Repr

structure Transaction where
  id : String
  item_id : String
  buyer_id : String
  seller_id : String
  conversation_id : String
  buy_request_id : Option String
  status : TxStatus
  buyer_confirmed : Bool
  seller_confirmed : Bool
  buyer_cancel_confirmed : Bool
  seller_cancel_confirmed : Bool
  meetup_time : Option String
  meetup_place : Option String
  meetup_lat : Option ℚ
  meetup_lng : Option ℚ
  completed_date : Option Nat
deriving DecidableEq, Repr

structure Review where
  id : String
  transaction_id : String
  item_id : String
  reviewer_id : String
  reviewee_id : String
  rating : ℤ
  comment : Option String
  response : Option String
  created_date : Nat
  updated_date : Nat
deriving DecidableEq, Repr

structure DB where
  items : List Item
  users : List User
  conversations : List Conversation
  messages : List Message
  buy_requests : List BuyRequest
  transactions : List Transaction
  reviews : List Review
deriving DecidableEq, Repr

/-- HTTPException as a pair of its `status_code` and `detail`. -/
abbrev Exc := Nat × String

/-- Renders `str(HTTPException)` as used in the wrapped 500 messages. -/
def excStr (e : Exc) : String := toString e.1 ++ ": " ++ e.2

/-- Status code of an error result, `none` on success. -/
def errStatusCode (r : Except Exc DB) : Option Nat :=
  match r with
  | .error e => some e.1
  | .ok _ => none

/-- Mutating the row returned by `query(...).first()`: apply `f` to the first
element satisfying `p`, keep the rest. -/
def updateFirst {α : Type} (p : α → Bool) (f : α → α) : List α → List α
  | [] => []
  | x :: xs => if p x then f x :: xs else x :: updateFirst p f xs

/-- `db.delete(obj)` for the row returned by `query(...).first()`. -/
def removeFirst {α : Type} (p : α → Bool) : List α → List α
  | [] => []
  | x :: xs => if p x then xs else x :: removeFirst p xs

/-- Python truthiness of an `Optional[str]`. -/
def optTruthy : Option String → Bool
  | none => false
  | some s => !(s == "")

def optGetD : Option String → String
  | none => ""
  | some s => s

def findItem (db : DB) (iid : String) : Option Item :=
  db.items.find? (fun it => it.id == iid)

def findUser (db : DB) (uid : String) : Option User :=
  db.users.find? (fun v => v.id == uid)

def findConv (db : DB) (cid : String) : Option Conversation :=
  db.conversations.find? (fun cv => cv.id == cid)

def findReq (db : DB) (rid : String) : Option BuyRequest :=
  db.buy_requests.find? (fun r => r.id == rid)

def findTx (db : DB) (tid : String) : Option Transaction :=
  db.transactions.find? (fun t => t.id == tid)

def findReview (db : DB) (rid : String) : Option Review :=
  db.reviews.find? (fun rv => rv.id == rid)

/-- `main.py` `update_item_status`: allowed statuses, source line 635. -/
def allowedItemStatuses : List String := ["available", "sold", "reserved"]

def parseItemStatus (s : String) : ItemStatus :=
  if s == "available" then .available
  else if s == "reserved" then .reserved
  else .sold

/-- `PUT /api/items/id/status` (`update_item_status`, main.py 627-654).
The seller may set any allowed status; no transaction is consulted. -/
def update_item_status (db : DB) (callerId itemId newStatus : String) :
    Except Exc DB :=
  if !(allowedItemStatuses.contains newStatus) then
    .error (400, "Invalid status. Allowed: available, reserved, sold")
  else
    match findItem db itemId with
    | none => .error (404, "Item not found")
    | some item =>
      if !(item.seller_id == callerId) then
        .error (403, "You can only update your own listings")
      else
        let items1 := updateFirst (fun it => it.id == itemId)
          (fun it => { it with status := parseItemStatus newStatus }) db.items
        .ok { db with items := items1 }

structure BuyRequestCreate where
  item_id : String
  conversation_id : Option String
deriving DecidableEq, Repr

/-- main.py 1343-1347: the filter of the duplicate-request check — a
pending-or-accepted request for the given (item, buyer) pair. -/
def activeReqPred (iid buyer : String) (r : BuyRequest) : Bool :=
  r.item_id == iid && r.buyer_id == buyer &&
    (r.status == ReqStatus.pending || r.status == ReqStatus.accepted)

/-- main.py 1343-1347: active (pending or accepted) request for (item, buyer). -/
def hasActiveReq (db : DB) (iid buyer : String) : Bool :=
  (db.buy_requests.find? (activeReqPred iid buyer)).isSome

/-- The invariant of §3: for every (item, buyer) pair, at most one buy
request is pending or accepted. -/
def atMostOneActive (db : DB) : Prop :=
  ∀ i b : String, (db.buy_requests.filter (activeReqPred i b)).length ≤ 1

/-- main.py 1356-1368: a provided conversation id is kept only when it does not
resolve, or resolves to a conversation for this item with matching
participants; otherwise it is dropped. Validation runs only on truthy input. -/
def validateProvidedConv (db : DB) (callerId : String) (item : Item)
    (provided : Option String) : Option String :=
  match provided with
  | none => none
  | some c =>
    if c == "" then some c
    else
      match findConv db c with
      | none => some c
      | some cv =>
        if !(cv.item_id == item.id) then none
        else if !((cv.participant1_id == callerId && cv.participant2_id == item.seller_id) ||
                  (cv.participant1_id == item.seller_id && cv.participant2_id == callerId)) then none
        else some c

/-- main.py 1371-1393: find the conversation for this item and participant
pair (order-independent), or create one. -/
def findOrCreateConv (db : DB) (callerId : String) (item : Item)
    (newConvId : String) : String × List Conversation :=
  match db.conversations.find? (fun cv =>
      cv.item_id == item.id &&
        ((cv.participant1_id == callerId && cv.participant2_id == item.seller_id) ||
         (cv.participant1_id == item.seller_id && cv.participant2_id == callerId))) with
  | some cv => (cv.id, db.conversations)
  | none =>
    (newConvId, db.conversations ++
      [{ id := newConvId, participant1_id := callerId, participant2_id := item.seller_id,
         item_id := item.id, last_message_at := none }])

/-- `POST /api/buy-requests` (`create_buy_request`, main.py 1328-1455). -/
def create_buy_request (db : DB) (now : Nat) (callerId : String)
    (payload : BuyRequestCreate) (newConvId newReqId newMsgId : String) :
    Except Exc (BuyRequest × DB) :=
  match findItem db payload.item_id with
  | none => .error (404, "Item not found")
  | some item =>
    if item.seller_id == callerId then
      .error (400, "You cannot request to buy your own item")
    else if !(item.status == ItemStatus.available) then
      .error (400, "Item is " ++ itemStatusStr item.status ++ " and cannot be requested")
    else if hasActiveReq db payload.item_id callerId then
      .error (400, "You already have a pending or accepted request for this item")
    else
      let vcid := validateProvidedConv db callerId item payload.conversation_id
      let resolved :=
        if optTruthy vcid then (optGetD vcid, db.conversations)
        else findOrCreateConv db callerId item newConvId
      let cid := resolved.1
      let req : BuyRequest :=
        { id := newReqId, item_id := item.id, buyer_id := callerId,
          seller_id := item.seller_id, conversation_id := cid,
          status := ReqStatus.pending, responded_date := none }
      let msg : Message :=
        { id := newMsgId, conversation_id := cid, sender_id := callerId,
          content := "Buy request for: " ++ item.title, message_type := "buy_request",
          buy_request_id := some newReqId, is_read := false }
      let convs2 := updateFirst (fun cv => cv.id == cid)
        (fun cv => { cv with last_message_at := some now }) resolved.2
      .ok (req, { db with conversations := convs2,
                          buy_requests := db.buy_requests ++ [req],
                          messages := db.messages ++ [msg] })

def findInProgressTxForItem (db : DB) (iid : String) : Option Transaction :=
  db.transactions.find? (fun t => t.item_id == iid && t.status == TxStatus.in_progress)

/-- `PATCH /api/buy-requests/id/accept` (`accept_buy_request`, main.py
1457-1555). -/
def accept_buy_request (db : DB) (now : Nat) (callerId reqId newTxId : String) :
    Except Exc DB :=
  match findReq db reqId with
  | none => .error (404, "Buy request not found")
  | some breq =>
    if !(breq.seller_id == callerId) then
      .error (403, "Only the seller can accept buy requests")
    else if !(breq.status == ReqStatus.pending) then
      .error (400, "Buy request is already " ++ reqStatusStr breq.status)
    else
      match findItem db breq.item_id with
      | none => .error (404, "Item not found")
      | some item =>
        if !(item.status == ItemStatus.available) then
          .error (400, "Item is " ++ itemStatusStr item.status ++ " and cannot be purchased")
        else if (findInProgressTxForItem db breq.item_id).isSome then
          .error (400, "Item already has an in-progress transaction")
        else
          let reqs1 := updateFirst (fun r => r.id == reqId)
            (fun r => { r with status := ReqStatus.accepted, responded_date := some now })
            db.buy_requests
          let reqs2 := reqs1.map (fun r =>
            if r.item_id == breq.item_id && r.status == ReqStatus.pending && !(r.id == breq.id)
            then { r with status := ReqStatus.rejected, responded_date := some now }
            else r)
          let newTx : Transaction :=
            { id := newTxId, item_id := breq.item_id, buyer_id := breq.buyer_id,
              seller_id := breq.seller_id, conversation_id := breq.conversation_id,
              buy_request_id := some breq.id, status := TxStatus.in_progress,
              buyer_confirmed := false, seller_confirmed := false,
              buyer_cancel_confirmed := false, seller_cancel_confirmed := false,
              meetup_time := none, meetup_place := none,
              meetup_lat := none, meetup_lng := none, completed_date := none }
          let items1 := updateFirst (fun it => it.id == breq.item_id)
            (fun it => { it with status := ItemStatus.reserved }) db.items
          let convs1 := updateFirst (fun cv => cv.id == breq.conversation_id)
            (fun cv => { cv with last_message_at := some now }) db.conversations
          .ok { db with buy_requests := reqs2,
                        transactions := db.transactions ++ [newTx],
                        items := items1, conversations := convs1 }

/-- Pydantic `TransactionUpdate` (main.py 237-246). The `status` field is part
of the payload but is never read by the handler. -/
structure TransactionUpdate where
  buyer_confirmed : Option Bool := none
  seller_confirmed : Option Bool := none
  buyer_cancel_confirmed : Option Bool := none
  seller_cancel_confirmed : Option Bool := none
  meetup_time : Option String := none
  meetup_place : Option String := none
  meetup_lat : Option ℚ := none
  meetup_lng : Option ℚ := none
  status : Option String := none
deriving DecidableEq, Repr

/-- Identity-and-linkage fields of a transaction row that the field-update
phase of `update_transaction` never touches. -/
def txCore (t : Transaction) :
    String × String × String × String × String × Option String × TxStatus × Option Nat :=
  (t.id, t.item_id, t.buyer_id, t.seller_id, t.conversation_id,
   t.buy_request_id, t.status, t.completed_date)

/-- main.py 1883-1886: `buyer_confirmed` is settable only by the buyer. -/
def applyBuyerConfirmed (callerId : String) (u : TransactionUpdate)
    (tx : Transaction) : Except Exc Transaction :=
  match u.buyer_confirmed with
  | none => .ok tx
  | some b =>
    if !(tx.buyer_id == callerId) then
      .error (403, "Only the buyer can set buyer_confirmed")
    else .ok { tx with buyer_confirmed := b }

/-- main.py 1888-1891: `seller_confirmed` is settable only by the seller. -/
def applySellerConfirmed (callerId : String) (u : TransactionUpdate)
    (tx : Transaction) : Except Exc Transaction :=
  match u.seller_confirmed with
  | none => .ok tx
  | some b =>
    if !(tx.seller_id == callerId) then
      .error (403, "Only the seller can set seller_confirmed")
    else .ok { tx with seller_confirmed := b }

/-- main.py 1893-1896: `buyer_cancel_confirmed` is settable only by the buyer. -/
def applyBuyerCancelConfirmed (callerId : String) (u : TransactionUpdate)
    (tx : Transaction) : Except Exc Transaction :=
  match u.buyer_cancel_confirmed with
  | none => .ok tx
  | some b =>
    if !(tx.buyer_id == callerId) then
      .error (403, "Only the buyer can set buyer_cancel_confirmed")
    else .ok { tx with buyer_cancel_confirmed := b }

/-- main.py 1898-1901: `seller_cancel_confirmed` is settable only by the seller. -/
def applySellerCancelConfirmed (callerId : String) (u : TransactionUpdate)
    (tx : Transaction) : Except Exc Transaction :=
  match u.seller_cancel_confirmed with
  | none => .ok tx
  | some b =>
    if !(tx.seller_id == callerId) then
      .error (403, "Only the seller can set seller_cancel_confirmed")
    else .ok { tx with seller_cancel_confirmed := b }

/-- main.py 1903-1907: a nonempty meetup time is stored, an empty string
clears the stored instant. -/
def applyMeetupTime (u : TransactionUpdate) (tx : Transaction) : Transaction :=
  match u.meetup_time with
  | none => tx
  | some s => if !(s == "") then { tx with meetup_time := some s }
              else { tx with meetup_time := none }

/-- main.py 1909-1910. -/
def applyMeetupPlace (u : TransactionUpdate) (tx : Transaction) : Transaction :=
  match u.meetup_place with
  | none => tx
  | some p => { tx with meetup_place := some p }

/-- main.py 1912-1913. -/
def applyMeetupLat (u : TransactionUpdate) (tx : Transaction) : Transaction :=
  match u.meetup_lat with
  | none => tx
  | some v => { tx with meetup_lat := some v }

/-- main.py 1915-1916. -/
def applyMeetupLng (u : TransactionUpdate) (tx : Transaction) : Transaction :=
  match u.meetup_lng with
  | none => tx
  | some v => { tx with meetup_lng := some v }

/-- main.py 1903-1916: meetup fields, settable by either participant. -/
def applyMeetupFields (u : TransactionUpdate) (tx : Transaction) : Transaction :=
  applyMeetupLng u (applyMeetupLat u (applyMeetupPlace u (applyMeetupTime u tx)))

/-- main.py 1883-1916: per-field application with field-level authorization.
The 403s here are raised inside the handler's `try`. -/
def applyFieldUpdates (callerId : String) (tx : Transaction)
    (u : TransactionUpdate) : Except Exc Transaction := do
  let tx ← applyBuyerConfirmed callerId u tx
  let tx ← applySellerConfirmed callerId u tx
  let tx ← applyBuyerCancelConfirmed callerId u tx
  let tx ← applySellerCancelConfirmed callerId u tx
  pure (applyMeetupFields u tx)

/-- main.py 1938-1940: the loop body cancelling another in-progress
transaction for the same item. -/
def cancelOtherTx (now : Nat) (itemId txId : String) (t : Transaction) : Transaction :=
  if t.item_id == itemId && !(t.id == txId) && t.status == TxStatus.in_progress
  then { t with status := TxStatus.cancelled, completed_date := some now }
  else t

/-- main.py 1945-1947 / 1972-1974: cancel a looked-up request if accepted. -/
def cancelIfAccepted (now : Nat) (r : BuyRequest) : BuyRequest :=
  if r.status == ReqStatus.accepted
  then { r with status := ReqStatus.cancelled, responded_date := some now }
  else r

/-- main.py 1943-1947: for each cancelled sibling transaction's linked request
id, look the request up and cancel it if accepted. The source loop
interleaves transaction and request writes; the two tables are disjoint, so
the request-side writes are gathered into one fold here. -/
def cancelLinkedReqs (now : Nat) (bids : List String)
    (reqs : List BuyRequest) : List BuyRequest :=
  bids.foldl (fun acc bid =>
    updateFirst (fun r => r.id == bid) (cancelIfAccepted now) acc) reqs

/-- main.py 1955-1957: reject a pending request for the item. -/
def rejectPending (now : Nat) (itemId : String) (r : BuyRequest) : BuyRequest :=
  if r.item_id == itemId && r.status == ReqStatus.pending
  then { r with status := ReqStatus.rejected, responded_date := some now }
  else r

/-- main.py 1923-1957: side effects of the completion trigger, `tx` being the
already-completed row (its `item_id`, `seller_id`, `id`, `buy_request_id` are
unchanged by the trigger). -/
def completionSideEffects (db : DB) (now : Nat) (tx : Transaction) : DB :=
  let items1 := updateFirst (fun it => it.id == tx.item_id)
    (fun it => { it with status := ItemStatus.sold }) db.items
  let users1 := updateFirst (fun v => v.id == tx.seller_id)
    (fun v => { v with total_sales := v.total_sales + 1 }) db.users
  let otherBids := (db.transactions.filter (fun t =>
      t.item_id == tx.item_id && !(t.id == tx.id) && t.status == TxStatus.in_progress)).filterMap
    (fun t => t.buy_request_id)
  let txs1 := db.transactions.map (cancelOtherTx now tx.item_id tx.id)
  let reqs1 := cancelLinkedReqs now otherBids db.buy_requests
  let reqs2 := reqs1.map (rejectPending now tx.item_id)
  { db with items := items1, users := users1, transactions := txs1, buy_requests := reqs2 }

/-- main.py 1964-1985 and (verbatim the same block) 2027-2048: side effects of
cancelling `tx`: revert the item only from reserved, cancel the linked
accepted request, and the (item, buyer) accepted-request safety net. -/
def cancellationSideEffects (db : DB) (now : Nat) (tx : Transaction) : DB :=
  let items1 := updateFirst (fun it => it.id == tx.item_id)
    (fun it => if it.status == ItemStatus.reserved
               then { it with status := ItemStatus.available } else it) db.items
  let reqs1 :=
    match tx.buy_request_id with
    | none => db.buy_requests
    | some bid => updateFirst (fun r => r.id == bid) (cancelIfAccepted now) db.buy_requests
  let reqs2 := reqs1.map (fun r =>
    if r.item_id == tx.item_id && r.buyer_id == tx.buyer_id &&
       r.status == ReqStatus.accepted && !(some r.id == tx.buy_request_id)
    then { r with status := ReqStatus.cancelled, responded_date := some now }
    else r)
  { db with items := items1, buy_requests := reqs2 }

/-- main.py 1918-1957: the completion trigger, evaluated on the row after
field updates; fires only when both confirmations hold on an in-progress
transaction. -/
def completeTrigger (db : DB) (now : Nat) (tx1 : Transaction) : Transaction × DB :=
  if tx1.buyer_confirmed && tx1.seller_confirmed && tx1.status == TxStatus.in_progress then
    let txc := { tx1 with status := TxStatus.completed, completed_date := some now }
    (txc, completionSideEffects db now txc)
  else (tx1, db)

/-- main.py 1959-1985: the cancellation trigger, evaluated after the
completion trigger (so it cannot fire when the row just completed). -/
def cancelTrigger (now : Nat) (p : Transaction × DB) : Transaction × DB :=
  if p.1.buyer_cancel_confirmed && p.1.seller_cancel_confirmed &&
     p.1.status == TxStatus.in_progress then
    let txc := { p.1 with status := TxStatus.cancelled, completed_date := some now }
    (txc, cancellationSideEffects p.2 now txc)
  else p

/-- main.py 1918-1986: after the field updates, evaluate the completion
trigger, then the cancellation trigger, and write the mutated row back. -/
def updateTxFinish (db : DB) (now : Nat) (txId : String) (tx1 : Transaction) : DB :=
  let p := cancelTrigger now (completeTrigger db now tx1)
  { p.2 with transactions :=
      updateFirst (fun t => t.id == txId) (fun _ => p.1) p.2.transactions }

/-- `PATCH /api/transactions/id` (`update_transaction`, main.py 1866-2006).
Field-auth failures inside the `try` are re-surfaced as a wrapped 500 by the
blanket `except Exception` handler (main.py 2003-2006). -/
def update_transaction (db : DB) (now : Nat) (callerId txId : String)
    (u : TransactionUpdate) : Except Exc DB :=
  match findTx db txId with
  | none => .error (404, "Transaction not found")
  | some tx =>
    if !(callerId == tx.buyer_id || callerId == tx.seller_id) then
      .error (403, "You can only update your own transactions")
    else if tx.status == TxStatus.completed || tx.status == TxStatus.cancelled then
      .error (400, "Cannot modify a " ++ txStatusStr tx.status ++ " transaction")
    else
      match applyFieldUpdates callerId tx u with
      | .error e => .error (500, "Failed to update transaction: " ++ excStr e)
      | .ok tx1 => .ok (updateTxFinish db now txId tx1)

/-- `PATCH /api/transactions/id/cancel` (`cancel_transaction`, main.py
2008-2068): unilateral cancel, rejected only for completed transactions. -/
def cancel_transaction (db : DB) (now : Nat) (callerId txId : String) :
    Except Exc DB :=
  match findTx db txId with
  | none => .error (404, "Transaction not found")
  | some tx =>
    if !(callerId == tx.buyer_id || callerId == tx.seller_id) then
      .error (403, "You can only cancel your own transactions")
    else if tx.status == TxStatus.completed then
      .error (400, "Cannot cancel a completed transaction")
    else
      let txc := { tx with status := TxStatus.cancelled, completed_date := some now }
      let db1 := cancellationSideEffects db now txc
      .ok { db1 with transactions :=
              updateFirst (fun t => t.id == txId) (fun _ => txc) db1.transactions }

def findPairTx (db : DB) (cid iid : String) : Option Transaction :=
  db.transactions.find? (fun t =>
    t.conversation_id == cid && t.item_id == iid && t.status == TxStatus.in_progress)

/-- `POST /api/transactions/create-with-appointment`
(`create_transaction_with_appointment`, main.py 1692-1846): idempotent upsert
keyed by (conversation, item); the 403/400 inside the `try` are wrapped into
500s by the blanket handler (main.py 1843-1846). -/
def create_transaction_with_appointment (db : DB) (now : Nat) (callerId : String)
    (item_id conversation_id meetup_place meetup_time : Option String)
    (newTxId : String) : Except Exc DB :=
  if !(optTruthy item_id) || !(optTruthy conversation_id) then
    .error (400, "item_id and conversation_id are required")
  else if !(optTruthy meetup_place) || !(optTruthy meetup_time) then
    .error (400, "meetup_place and meetup_time are required")
  else
    let iid := optGetD item_id
    let cid := optGetD conversation_id
    let place := optGetD meetup_place
    let mtime := optGetD meetup_time
    match findItem db iid with
    | none => .error (404, "Item not found")
    | some item =>
      match findConv db cid with
      | none => .error (404, "Conversation not found")
      | some conv =>
        if !(callerId == conv.participant1_id || callerId == conv.participant2_id) then
          .error (403, "You must be a participant in this conversation")
        else if !(conv.item_id == iid) then
          .error (400, "Conversation is not for this item")
        else
          match findPairTx db cid iid with
          | some ext =>
            if !(callerId == ext.buyer_id || callerId == ext.seller_id) then
              .error (500, "Failed to create transaction: " ++
                excStr (403, "You are not authorized to update this transaction"))
            else
              let txs1 := updateFirst (fun t =>
                  t.conversation_id == cid && t.item_id == iid && t.status == TxStatus.in_progress)
                (fun t => { t with meetup_time := some mtime, meetup_place := some place })
                db.transactions
              let convs1 := updateFirst (fun cv => cv.id == cid)
                (fun cv => { cv with last_message_at := some now }) db.conversations
              .ok { db with transactions := txs1, conversations := convs1 }
          | none =>
            if !(item.status == ItemStatus.available) then
              .error (500, "Failed to create transaction: " ++
                excStr (400, "Item is " ++ itemStatusStr item.status ++ " and cannot be purchased"))
            else
              let is_seller := callerId == item.seller_id
              let buyerId :=
                if is_seller then
                  (if !(conv.participant1_id == callerId) then conv.participant1_id
                   else conv.participant2_id)
                else callerId
              let sellerId := if is_seller then callerId else item.seller_id
              let newTx : Transaction :=
                { id := newTxId, item_id := iid, buyer_id := buyerId, seller_id := sellerId,
                  conversation_id := cid, buy_request_id := none,
                  status := TxStatus.in_progress,
                  buyer_confirmed := false, seller_confirmed := false,
                  buyer_cancel_confirmed := false, seller_cancel_confirmed := false,
                  meetup_time := some mtime, meetup_place := some place,
                  meetup_lat := none, meetup_lng := none, completed_date := none }
              let items1 := updateFirst (fun it => it.id == iid)
                (fun it => { it with status := ItemStatus.reserved }) db.items
              let convs1 := updateFirst (fun cv => cv.id == cid)
                (fun cv => { cv with last_message_at := some now }) db.conversations
              .ok { db with transactions := db.transactions ++ [newTx],
                            items := items1, conversations := convs1 }

/-- Python `round(x)` ties-to-even on an exact rational value. -/
def roundHalfEven (q : ℚ) : ℤ :=
  let n := ⌊q⌋
  if q - n < 1/2 then n
  else if 1/2 < q - n then n + 1
  else if n % 2 = 0 then n else n + 1

/-- Python `round(x, 2)` on an exact rational value. -/
def round2 (q : ℚ) : ℚ := (roundHalfEven (q * 100) : ℚ) / 100

/-- `calculate_user_rating` (main.py 434-440): mean of the ratings of all
reviews naming the user as reviewee, rounded to 2 decimals, 0.0 if none. -/
def calculate_user_rating (db : DB) (userId : String) : ℚ :=
  let reviews := db.reviews.filter (fun r => r.reviewee_id == userId)
  if reviews.isEmpty then 0
  else round2 (((reviews.map (fun r => (r.rating : ℚ))).sum) / reviews.length)

/-- `POST /api/reviews` (`create_review`, main.py 2075-2139). -/
def create_review (db : DB) (now : Nat) (callerId transaction_id : String)
    (rating : ℤ) (comment : Option String) (newReviewId : String) :
    Except Exc (Review × DB) :=
  match findTx db transaction_id with
  | none => .error (404, "Transaction not found")
  | some tx =>
    if !(tx.status == TxStatus.completed) then
      .error (400, "Can only review completed transactions")
    else
      match (if callerId == tx.buyer_id then some (tx.buyer_id, tx.seller_id)
             else if callerId == tx.seller_id then some (tx.seller_id, tx.buyer_id)
             else none) with
      | none => .error (403, "You can only review transactions you participated in")
      | some pair =>
        let reviewerId := pair.1
        let revieweeId := pair.2
        if rating < 1 || rating > 5 then
          .error (400, "Rating must be between 1 and 5")
        else if (db.reviews.find? (fun rv =>
            rv.transaction_id == transaction_id && rv.reviewer_id == reviewerId)).isSome then
          .error (400, "You have already reviewed this transaction")
        else
          let rv : Review :=
            { id := newReviewId, transaction_id := transaction_id, item_id := tx.item_id,
              reviewer_id := reviewerId, reviewee_id := revieweeId, rating := rating,
              comment := comment, response := none,
              created_date := now, updated_date := now }
          let db1 := { db with reviews := db.reviews ++ [rv] }
          let newRating := calculate_user_rating db1 revieweeId
          let users1 := updateFirst (fun v => v.id == revieweeId)
            (fun v => { v with rating := newRating }) db1.users
          .ok (rv, { db1 with users := users1 })

/-- `DELETE /api/reviews/id` (`delete_review`, main.py 2202-2230). -/
def delete_review (db : DB) (callerId reviewId : String) : Except Exc DB :=
  match findReview db reviewId with
  | none => .error (404, "Review not found")
  | some rv =>
    if !(rv.reviewer_id == callerId) then
      .error (403, "You can only delete your own reviews")
    else
      let db1 := { db with reviews := removeFirst (fun x => x.id == reviewId) db.reviews }
      let newRating := calculate_user_rating db1 rv.reviewee_id
      let users1 := updateFirst (fun v => v.id == rv.reviewee_id)
        (fun v => { v with rating := newRating }) db1.users
      .ok { db1 with users := users1 }

/-! ### Concrete states used by the witnesses and counterexamples -/

def wSeller : User := { id := "s", rating := 0, total_sales := 3 }

def wBuyer : User := { id := "b", rating := 0, total_sales := 0 }

def wBuyer2 : User := { id := "b2", rating := 0, total_sales := 0 }

def wItemReserved : Item :=
  { id := "i1", title := "Lamp", seller_id := "s", status := ItemStatus.reserved }

def wT1 : Transaction :=
  { id := "t1", item_id := "i1", buyer_id := "b", seller_id := "s",
    conversation_id := "c1", buy_request_id := some "r1",
    status := TxStatus.in_progress, buyer_confirmed := true,
    seller_confirmed := false, buyer_cancel_confirmed := false,
    seller_cancel_confirmed := false, meetup_time := none, meetup_place := none,
    meetup_lat := none, meetup_lng := none, completed_date := none }

def wT2 : Transaction :=
  { id := "t2", item_id := "i1", buyer_id := "b2", seller_id := "s",
    conversation_id := "c2", buy_request_id := some "r2",
    status := TxStatus.in_progress, buyer_confirmed := false,
    seller_confirmed := false, buyer_cancel_confirmed := false,
    seller_cancel_confirmed := false, meetup_time := none, meetup_place := none,
    meetup_lat := none, meetup_lng := none, completed_date := none }

def wR1 : BuyRequest :=
  { id := "r1", item_id := "i1", buyer_id := "b", seller_id := "s",
    conversation_id := "c1", status := ReqStatus.accepted, responded_date := some 1 }

def wR2 : BuyRequest :=
  { id := "r2", item_id := "i1", buyer_id := "b2", seller_id := "s",
    conversation_id := "c2", status := ReqStatus.accepted, responded_date := some 1 }

def wR3 : BuyRequest :=
  { id := "r3", item_id := "i1", buyer_id := "b3", seller_id := "s",
    conversation_id := "c3", status := ReqStatus.pending, responded_date := none }

def c1db : DB :=
  { items := [wItemReserved], users := [wBuyer, wSeller, wBuyer2],
    conversations := [], messages := [], buy_requests := [wR1, wR2, wR3],
    transactions := [wT1, wT2], reviews := [] }

def c1upd : TransactionUpdate := { seller_confirmed := some true }

def c1tx1 : Transaction := { wT1 with seller_confirmed := true }

def c1dbAfter : DB :=
  match update_transaction c1db 7 "s" "t1" c1upd with
  | .ok d => d
  | .error _ => c1db

def c3t1 : Transaction :=
  { id := "t1", item_id := "i1", buyer_id := "b", seller_id := "s",
    conversation_id := "c1", buy_request_id := some "r1",
    status := TxStatus.in_progress, buyer_confirmed := false,
    seller_confirmed := false, buyer_cancel_confirmed := true,
    seller_cancel_confirmed := false, meetup_time := none, meetup_place := none,
    meetup_lat := none, meetup_lng := none, completed_date := none }

def c3db : DB :=
  { items := [wItemReserved], users := [wBuyer, wSeller], conversations := [],
    messages := [], buy_requests := [wR1], transactions := [c3t1], reviews := [] }

def c3upd : TransactionUpdate := { seller_cancel_confirmed := some true }

def c3tx1 : Transaction := { c3t1 with seller_cancel_confirmed := true }

def c3dbAfter : DB :=
  match update_transaction c3db 9 "s" "t1" c3upd with
  | .ok d => d
  | .error _ => c3db

def c10upd : TransactionUpdate := { meetup_place := some "GSU" }

def c10dbAfter : DB :=
  match update_transaction c1db 5 "b" "t1" c10upd with
  | .ok d => d
  | .error _ => c1db

def c6dbAfter : DB :=
  match cancel_transaction c1db 11 "b" "t1" with
  | .ok d => d
  | .error _ => c1db

def c2item : Item :=
  { id := "i1", title := "Lamp", seller_id := "s", status := ItemStatus.available }

def c2req : BuyRequest :=
  { id := "r1", item_id := "i1", buyer_id := "b", seller_id := "s",
    conversation_id := "c1", status := ReqStatus.pending, responded_date := none }

def c2db : DB :=
  { items := [c2item], users := [wBuyer, wSeller], conversations := [],
    messages := [], buy_requests := [c2req, wR3], transactions := [], reviews := [] }

def c2dbAfter : DB :=
  match accept_buy_request c2db 3 "s" "r1" "t9" with
  | .ok d => d
  | .error _ => c2db

def c7payload : BuyRequestCreate := { item_id := "i1", conversation_id := none }

def c4item : Item :=
  { id := "i9", title := "Desk", seller_id := "s", status := ItemStatus.available }

def c4db : DB :=
  { items := [c4item], users := [wSeller], conversations := [], messages := [],
    buy_requests := [], transactions := [], reviews := [] }

def c4dbAfter : DB :=
  match update_item_status c4db "s" "i9" "reserved" with
  | .ok d => d
  | .error _ => c4db

def c5conv : Conversation :=
  { id := "c1", participant1_id := "b", participant2_id := "s",
    item_id := "i1", last_message_at := none }

def c5db : DB :=
  { items := [c2item], users := [wBuyer, wSeller], conversations := [c5conv],
    messages := [], buy_requests := [], transactions := [], reviews := [] }

def c5db1 : DB :=
  match create_transaction_with_appointment c5db 1 "b" (some "i1") (some "c1")
      (some "CAS lobby") (some "2025-01-01T10:00:00") "tA" with
  | .ok d => d
  | .error _ => c5db

def c5db2 : DB :=
  match create_transaction_with_appointment c5db1 2 "s" (some "i1") (some "c1")
      (some "GSU") (some "2025-01-02T11:00:00") "tB" with
  | .ok d => d
  | .error _ => c5db1

def c9tx : Transaction :=
  { id := "t5", item_id := "i1", buyer_id := "b", seller_id := "s",
    conversation_id := "c1", buy_request_id := none,
    status := TxStatus.completed, buyer_confirmed := true,
    seller_confirmed := true, buyer_cancel_confirmed := false,
    seller_cancel_confirmed := false, meetup_time := none, meetup_place := none,
    meetup_lat := none, meetup_lng := none, completed_date := some 2 }

def c9db : DB :=
  { items := [wItemReserved], users := [wBuyer, wSeller], conversations := [],
    messages := [], buy_requests := [], transactions := [c9tx], reviews := [] }

def c9rv : Review :=
  { id := "rv1", transaction_id := "t5", item_id := "i1", reviewer_id := "b",
    reviewee_id := "s", rating := 5, comment := none, response := none,
    created_date := 3, updated_date := 3 }

def c9db1 : DB :=
  match create_review c9db 3 "b" "t5" 5 none "rv1" with
  | .ok p => p.2
  | .error _ => c9db

def c9db2 : DB :=
  match delete_review c9db1 "b" "rv1" with
  | .ok d => d
  | .error _ => c9db1

/-! ### List-level lemmas about `updateFirst`, `removeFirst` and `find?` -/

theorem length_updateFirst {α : Type} (p : α → Bool) (f : α → α) (l : List α) :
    (updateFirst p f l).length = l.length := by
  induction l with
  | nil => rfl
  | cons x xs ih =>
    unfold updateFirst
    cases h : p x <;> simp [ih]

theorem updateFirst_cons_pos {α : Type} {p : α → Bool} {f : α → α} {x : α}
    {xs : List α} (hx : p x = true) :
    updateFirst p f (x :: xs) = f x :: xs := by
  show (if p x = true then f x :: xs else x :: updateFirst p f xs) = f x :: xs
  rw [if_pos hx]

theorem updateFirst_cons_neg {α : Type} {p : α → Bool} {f : α → α} {x : α}
    {xs : List α} (hx : p x = false) :
    updateFirst p f (x :: xs) = x :: updateFirst p f xs := by
  show (if p x = true then f x :: xs else x :: updateFirst p f xs) = x :: updateFirst p f xs
  rw [if_neg (by simp [hx])]

theorem removeFirst_cons_pos {α : Type} {p : α → Bool} {x : α}
    {xs : List α} (hx : p x = true) :
    removeFirst p (x :: xs) = xs := by
  show (if p x = true then xs else x :: removeFirst p xs) = xs
  rw [if_pos hx]

theorem removeFirst_cons_neg {α : Type} {p : α → Bool} {x : α}
    {xs : List α} (hx : p x = false) :
    removeFirst p (x :: xs) = x :: removeFirst p xs := by
  show (if p x = true then xs else x :: removeFirst p xs) = x :: removeFirst p xs
  rw [if_neg (by simp [hx])]

theorem find?_updateFirst_of_found {α : Type} {p : α → Bool} {f : α → α}
    (hmaint : ∀ a, p a = true → p (f a) = true) {l : List α} {r : α}
    (h : l.find? p = some r) : (updateFirst p f l).find? p = some (f r) := by
  induction l with
  | nil => cases h
  | cons x xs ih =>
    cases hx : p x with
    | true =>
      rw [List.find?_cons_of_pos _ hx] at h
      cases h
      rw [updateFirst_cons_pos hx]
      exact List.find?_cons_of_pos _ (hmaint _ hx)
    | false =>
      rw [List.find?_cons_of_neg _ (by simp [hx])] at h
      rw [updateFirst_cons_neg hx, List.find?_cons_of_neg _ (by simp [hx])]
      exact ih h

theorem find?_updateFirst_disj {α : Type} {p q : α → Bool} {f : α → α}
    (hq : ∀ a, p a = true → q (f a) = false)
    (hpq : ∀ a, q a = true → p a = false) (l : List α) :
    (updateFirst p f l).find? q = l.find? q := by
  induction l with
  | nil => rfl
  | cons x xs ih =>
    cases hx : p x with
    | true =>
      have hqx : q x = false := by
        cases hqc : q x with
        | false => rfl
        | true => rw [hpq x hqc] at hx; cases hx
      rw [updateFirst_cons_pos hx,
          List.find?_cons_of_neg _ (by simp [hq x hx]),
          List.find?_cons_of_neg _ (by simp [hqx])]
    | false =>
      cases hqc : q x with
      | true =>
        rw [updateFirst_cons_neg hx,
            List.find?_cons_of_pos _ hqc, List.find?_cons_of_pos _ hqc]
      | false =>
        rw [updateFirst_cons_neg hx,
            List.find?_cons_of_neg _ (by simp [hqc]),
            List.find?_cons_of_neg _ (by simp [hqc])]
        exact ih

theorem mem_updateFirst {α : Type} {p : α → Bool} {f : α → α} {x : α}
    (hx : p x = true → f x = x) {l : List α} (hmem : x ∈ l) :
    x ∈ updateFirst p f l := by
  induction l with
  | nil => cases hmem
  | cons y ys ih =>
    cases h : p y with
    | true =>
      rw [updateFirst_cons_pos h]
      rcases List.mem_cons.1 hmem with rfl | hmem'
      · rw [hx h]; exact List.mem_cons_self _ _
      · exact List.mem_cons.2 (Or.inr hmem')
    | false =>
      rw [updateFirst_cons_neg h]
      rcases List.mem_cons.1 hmem with rfl | hmem'
      · exact List.mem_cons_self _ _
      · exact List.mem_cons.2 (Or.inr (ih hmem'))

theorem find?_map_pred {α : Type} {f : α → α} {q : α → Bool}
    (hq : ∀ a, q (f a) = q a) (l : List α) :
    (l.map f).find? q = (l.find? q).map f := by
  induction l with
  | nil => rfl
  | cons x xs ih =>
    cases h : q x with
    | true =>
      rw [List.map_cons, List.find?_cons_of_pos _ (by rw [hq]; exact h),
          List.find?_cons_of_pos _ h]
      rfl
    | false =>
      rw [List.map_cons, List.find?_cons_of_neg _ (by simp [hq, h]),
          List.find?_cons_of_neg _ (by simp [h])]
      exact ih

theorem updateFirst_append_none {α : Type} {p : α → Bool} {f : α → α}
    (l1 l2 : List α) (h : ∀ x ∈ l1, p x = false) :
    updateFirst p f (l1 ++ l2) = l1 ++ updateFirst p f l2 := by
  induction l1 with
  | nil => rfl
  | cons x xs ih =>
    have hx : p x = false := h x (List.mem_cons_self x xs)
    rw [List.cons_append, updateFirst_cons_neg hx,
        ih (fun y hy => h y (List.mem_cons_of_mem x hy)), List.cons_append]

theorem removeFirst_append_none {α : Type} {p : α → Bool}
    (l1 l2 : List α) (h : ∀ x ∈ l1, p x = false) :
    removeFirst p (l1 ++ l2) = l1 ++ removeFirst p l2 := by
  induction l1 with
  | nil => rfl
  | cons x xs ih =>
    have hx : p x = false := h x (List.mem_cons_self x xs)
    rw [List.cons_append, removeFirst_cons_neg hx,
        ih (fun y hy => h y (List.mem_cons_of_mem x hy)), List.cons_append]

/-! ### Inversion of `Except` binds and preservation facts -/

theorem except_bind_ok {α β : Type} {m : Except Exc α} {f : α → Except Exc β}
    {b : β} (h : (m >>= f) = .ok b) : ∃ a, m = .ok a ∧ f a = .ok b := by
  cases m with
  | error e => exact Except.noConfusion h
  | ok a => exact ⟨a, rfl, h⟩

theorem except_bind_error {α β : Type} {e : Exc} {m : Except Exc α}
    {f : α → Except Exc β} (h : m = .error e) : (m >>= f) = .error e := by
  rw [h]; rfl

theorem applyBuyerConfirmed_core {c : String} {u : TransactionUpdate}
    {tx tx' : Transaction} (h : applyBuyerConfirmed c u tx = .ok tx') :
    txCore tx' = txCore tx := by
  unfold applyBuyerConfirmed at h
  cases hu : u.buyer_confirmed with
  | none => rw [hu] at h; cases h; rfl
  | some b =>
    rw [hu] at h
    cases hb : (!(tx.buyer_id == c)) with
    | true => simp [hb] at h
    | false =>
      simp only [hb] at h
      rw [if_neg (by simp)] at h
      rw [← Except.ok.inj h]
      rfl

theorem applySellerConfirmed_core {c : String} {u : TransactionUpdate}
    {tx tx' : Transaction} (h : applySellerConfirmed c u tx = .ok tx') :
    txCore tx' = txCore tx := by
  unfold applySellerConfirmed at h
  cases hu : u.seller_confirmed with
  | none => rw [hu] at h; cases h; rfl
  | some b =>
    rw [hu] at h
    cases hb : (!(tx.seller_id == c)) with
    | true => simp [hb] at h
    | false =>
      simp only [hb] at h
      rw [if_neg (by simp)] at h
      rw [← Except.ok.inj h]
      rfl

theorem applyBuyerCancelConfirmed_core {c : String} {u : TransactionUpdate}
    {tx tx' : Transaction} (h : applyBuyerCancelConfirmed c u tx = .ok tx') :
    txCore tx' = txCore tx := by
  unfold applyBuyerCancelConfirmed at h
  cases hu : u.buyer_cancel_confirmed with
  | none => rw [hu] at h; cases h; rfl
  | some b =>
    rw [hu] at h
    cases hb : (!(tx.buyer_id == c)) with
    | true => simp [hb] at h
    | false =>
      simp only [hb] at h
      rw [if_neg (by simp)] at h
      rw [← Except.ok.inj h]
      rfl

theorem applySellerCancelConfirmed_core {c : String} {u : TransactionUpdate}
    {tx tx' : Transaction} (h : applySellerCancelConfirmed c u tx = .ok tx') :
    txCore tx' = txCore tx := by
  unfold applySellerCancelConfirmed at h
  cases hu : u.seller_cancel_confirmed with
  | none => rw [hu] at h; cases h; rfl
  | some b =>
    rw [hu] at h
    cases hb : (!(tx.seller_id == c)) with
    | true => simp [hb] at h
    | false =>
      simp only [hb] at h
      rw [if_neg (by simp)] at h
      rw [← Except.ok.inj h]
      rfl

theorem applyMeetupTime_core (u : TransactionUpdate) (tx : Transaction) :
    txCore (applyMeetupTime u tx) = txCore tx := by
  unfold applyMeetupTime
  cases u.meetup_time with
  | none => rfl
  | some s => cases hs : (!(s == "")) <;> simp [hs, txCore]

theorem applyMeetupPlace_core (u : TransactionUpdate) (tx : Transaction) :
    txCore (applyMeetupPlace u tx) = txCore tx := by
  unfold applyMeetupPlace
  cases u.meetup_place <;> rfl

theorem applyMeetupLat_core (u : TransactionUpdate) (tx : Transaction) :
    txCore (applyMeetupLat u tx) = txCore tx := by
  unfold applyMeetupLat
  cases u.meetup_lat <;> rfl

theorem applyMeetupLng_core (u : TransactionUpdate) (tx : Transaction) :
    txCore (applyMeetupLng u tx) = txCore tx := by
  unfold applyMeetupLng
  cases u.meetup_lng <;> rfl

theorem applyMeetupFields_core (u : TransactionUpdate) (tx : Transaction) :
    txCore (applyMeetupFields u tx) = txCore tx := by
  unfold applyMeetupFields
  rw [applyMeetupLng_core, applyMeetupLat_core, applyMeetupPlace_core,
      applyMeetupTime_core]

theorem applyFieldUpdates_core {c : String} {tx : Transaction}
    {u : TransactionUpdate} {tx1 : Transaction}
    (h : applyFieldUpdates c tx u = .ok tx1) : txCore tx1 = txCore tx := by
  unfold applyFieldUpdates at h
  obtain ⟨a, ha, h⟩ := except_bind_ok h
  obtain ⟨b, hb, h⟩ := except_bind_ok h
  obtain ⟨d, hd, h⟩ := except_bind_ok h
  obtain ⟨e, he, h⟩ := except_bind_ok h
  have h5 : applyMeetupFields u e = tx1 := Except.ok.inj h
  rw [← h5]
  calc txCore (applyMeetupFields u e) = txCore e := applyMeetupFields_core u e
    _ = txCore d := applySellerCancelConfirmed_core he
    _ = txCore b := applyBuyerCancelConfirmed_core hd
    _ = txCore a := applySellerConfirmed_core hb
    _ = txCore tx := applyBuyerConfirmed_core ha

/-! ### Facts about the cascade mutators -/

theorem cancelIfAccepted_id (now : Nat) (r : BuyRequest) :
    (cancelIfAccepted now r).id = r.id := by
  unfold cancelIfAccepted; split <;> rfl

theorem cancelIfAccepted_of_accepted {now : Nat} {r : BuyRequest}
    (h : r.status = ReqStatus.accepted) :
    cancelIfAccepted now r =
      { r with status := ReqStatus.cancelled, responded_date := some now } := by
  unfold cancelIfAccepted; rw [if_pos (by simp [h])]

theorem cancelIfAccepted_of_not {now : Nat} {r : BuyRequest}
    (h : ¬ r.status = ReqStatus.accepted) : cancelIfAccepted now r = r := by
  unfold cancelIfAccepted; rw [if_neg (by simp [h])]

theorem rejectPending_id (now : Nat) (i : String) (r : BuyRequest) :
    (rejectPending now i r).id = r.id := by
  unfold rejectPending; split <;> rfl

theorem rejectPending_of_pending {now : Nat} {i : String} {r : BuyRequest}
    (h1 : r.item_id = i) (h2 : r.status = ReqStatus.pending) :
    rejectPending now i r =
      { r with status := ReqStatus.rejected, responded_date := some now } := by
  unfold rejectPending; rw [if_pos (by simp [h1, h2])]

theorem rejectPending_of_not_pending {now : Nat} {i : String} {r : BuyRequest}
    (h : ¬ r.status = ReqStatus.pending) : rejectPending now i r = r := by
  unfold rejectPending; rw [if_neg (by simp [h])]

theorem cancelOtherTx_id (now : Nat) (i tid : String) (t : Transaction) :
    (cancelOtherTx now i tid t).id = t.id := by
  unfold cancelOtherTx; split <;> rfl

theorem cancelOtherTx_of_match {now : Nat} {i tid : String} {t : Transaction}
    (h1 : t.item_id = i) (h2 : ¬ t.id = tid) (h3 : t.status = TxStatus.in_progress) :
    cancelOtherTx now i tid t =
      { t with status := TxStatus.cancelled, completed_date := some now } := by
  unfold cancelOtherTx; rw [if_pos (by simp [h1, h2, h3])]

theorem cancelOtherTx_of_other {now : Nat} {i tid : String} {t : Transaction}
    (h : t.id = tid) : cancelOtherTx now i tid t = t := by
  unfold cancelOtherTx; rw [if_neg (by simp [h])]

theorem cancelLinkedReqs_nil (now : Nat) (reqs : List BuyRequest) :
    cancelLinkedReqs now [] reqs = reqs := rfl

theorem cancelLinkedReqs_cons (now : Nat) (b : String) (bids : List String)
    (reqs : List BuyRequest) :
    cancelLinkedReqs now (b :: bids) reqs =
      cancelLinkedReqs now bids
        (updateFirst (fun r => r.id == b) (cancelIfAccepted now) reqs) := rfl

theorem mem_cancelLinkedReqs {now : Nat} {x : BuyRequest}
    (hx : cancelIfAccepted now x = x) (bids : List String) :
    ∀ reqs : List BuyRequest, x ∈ reqs → x ∈ cancelLinkedReqs now bids reqs := by
  induction bids with
  | nil => intro reqs h; exact h
  | cons b bs ih =>
    intro reqs h
    rw [cancelLinkedReqs_cons]
    exact ih _ (mem_updateFirst (fun _ => hx) h)

theorem cancelLinkedReqs_find?_fix {now : Nat} {bid : String} {r : BuyRequest}
    (hfix : cancelIfAccepted now r = r) (bids : List String) :
    ∀ reqs : List BuyRequest,
      reqs.find? (fun a => a.id == bid) = some r →
      (cancelLinkedReqs now bids reqs).find? (fun a => a.id == bid) = some r := by
  induction bids with
  | nil => intro reqs h; exact h
  | cons b bs ih =>
    intro reqs h
    rw [cancelLinkedReqs_cons]
    apply ih
    by_cases hb : b = bid
    · subst hb
      rw [find?_updateFirst_of_found (fun a ha => by rw [cancelIfAccepted_id]; exact ha) h]
      rw [hfix]
    · rw [find?_updateFirst_disj ?_ ?_, h]
      · intro a ha
        have haid : a.id = b := by simpa using ha
        rw [cancelIfAccepted_id, haid]
        simpa using hb
      · intro a ha
        have haid : a.id = bid := by simpa using ha
        have hb' : ¬ bid = b := fun hh => hb hh.symm
        rw [haid]
        simpa using hb'

theorem cancelLinkedReqs_find? {now : Nat} {bid : String} {r : BuyRequest}
    (hacc : r.status = ReqStatus.accepted) (bids : List String) :
    ∀ reqs : List BuyRequest, bid ∈ bids →
      reqs.find? (fun a => a.id == bid) = some r →
      (cancelLinkedReqs now bids reqs).find? (fun a => a.id == bid) =
        some { r with status := ReqStatus.cancelled, responded_date := some now } := by
  induction bids with
  | nil => intro reqs hmem; cases hmem
  | cons b bs ih =>
    intro reqs hmem h
    rw [cancelLinkedReqs_cons]
    by_cases hb : b = bid
    · subst hb
      have h1 := @find?_updateFirst_of_found BuyRequest (fun a => a.id == b)
        (cancelIfAccepted now)
        (fun a ha => by simpa [cancelIfAccepted_id] using ha) reqs r h
      rw [cancelIfAccepted_of_accepted hacc] at h1
      exact cancelLinkedReqs_find?_fix (by unfold cancelIfAccepted; simp) bs _ h1
    · have hmem' : bid ∈ bs := by
        rcases List.mem_cons.1 hmem with h' | h'
        · exact absurd h'.symm hb
        · exact h'
      apply ih _ hmem'
      rw [find?_updateFirst_disj ?_ ?_]
      · exact h
      · intro a ha
        have haid : a.id = b := by simpa using ha
        rw [cancelIfAccepted_id, haid]
        simpa using hb
      · intro a ha
        have haid : a.id = bid := by simpa using ha
        have hb' : ¬ bid = b := fun hh => hb hh.symm
        rw [haid]
        simpa using hb'

/-! ### Shape of `update_transaction` on success -/

theorem completeTrigger_pos {db : DB} {now : Nat} {tx1 : Transaction}
    (hb : tx1.buyer_confirmed = true) (hs : tx1.seller_confirmed = true)
    (hst : tx1.status = TxStatus.in_progress) :
    completeTrigger db now tx1 =
      ({ tx1 with status := TxStatus.completed, completed_date := some now },
       completionSideEffects db now
         { tx1 with status := TxStatus.completed, completed_date := some now }) := by
  unfold completeTrigger
  rw [if_pos (by simp [hb, hs, hst])]

theorem completeTrigger_neg {db : DB} {now : Nat} {tx1 : Transaction}
    (hnc : (tx1.buyer_confirmed && tx1.seller_confirmed) = false) :
    completeTrigger db now tx1 = (tx1, db) := by
  unfold completeTrigger
  rw [if_neg (by simp [hnc])]

theorem cancelTrigger_pos {now : Nat} {t : Transaction} {d : DB}
    (hbc : t.buyer_cancel_confirmed = true) (hsc : t.seller_cancel_confirmed = true)
    (hst : t.status = TxStatus.in_progress) :
    cancelTrigger now (t, d) =
      ({ t with status := TxStatus.cancelled, completed_date := some now },
       cancellationSideEffects d now
         { t with status := TxStatus.cancelled, completed_date := some now }) := by
  unfold cancelTrigger
  rw [if_pos (by simp [hbc, hsc, hst])]

theorem cancelTrigger_neg {now : Nat} {t : Transaction} {d : DB}
    (h : (t.buyer_cancel_confirmed && t.seller_cancel_confirmed &&
          t.status == TxStatus.in_progress) = false) :
    cancelTrigger now (t, d) = (t, d) := by
  unfold cancelTrigger
  rw [if_neg (by simp [h])]

theorem updateTxFinish_complete {db : DB} {now : Nat} {txId : String}
    {tx1 : Transaction} (hb : tx1.buyer_confirmed = true)
    (hs : tx1.seller_confirmed = true) (hst : tx1.status = TxStatus.in_progress) :
    updateTxFinish db now txId tx1 =
      { completionSideEffects db now
          { tx1 with status := TxStatus.completed, completed_date := some now } with
        transactions := updateFirst (fun t => t.id == txId)
          (fun _ => { tx1 with status := TxStatus.completed, completed_date := some now })
          (completionSideEffects db now
            { tx1 with status := TxStatus.completed, completed_date := some now }).transactions } := by
  unfold updateTxFinish
  rw [completeTrigger_pos hb hs hst, cancelTrigger_neg (by simp)]

theorem updateTxFinish_cancel {db : DB} {now : Nat} {txId : String}
    {tx1 : Transaction} (hnc : (tx1.buyer_confirmed && tx1.seller_confirmed) = false)
    (hbc : tx1.buyer_cancel_confirmed = true) (hsc : tx1.seller_cancel_confirmed = true)
    (hst : tx1.status = TxStatus.in_progress) :
    updateTxFinish db now txId tx1 =
      { cancellationSideEffects db now
          { tx1 with status := TxStatus.cancelled, completed_date := some now } with
        transactions := updateFirst (fun t => t.id == txId)
          (fun _ => { tx1 with status := TxStatus.cancelled, completed_date := some now })
          (cancellationSideEffects db now
            { tx1 with status := TxStatus.cancelled, completed_date := some now }).transactions } := by
  unfold updateTxFinish
  rw [completeTrigger_neg hnc, cancelTrigger_pos hbc hsc hst]

theorem updateTxFinish_none {db : DB} {now : Nat} {txId : String}
    {tx1 : Transaction} (hnc : (tx1.buyer_confirmed && tx1.seller_confirmed) = false)
    (hncc : (tx1.buyer_cancel_confirmed && tx1.seller_cancel_confirmed) = false) :
    updateTxFinish db now txId tx1 =
      { db with transactions :=
          updateFirst (fun t => t.id == txId) (fun _ => tx1) db.transactions } := by
  unfold updateTxFinish
  rw [completeTrigger_neg hnc, cancelTrigger_neg (by simp [hncc])]

theorem update_transaction_ok_inv {db : DB} {now : Nat} {c txId : String}
    {u : TransactionUpdate} {db' : DB}
    (hok : update_transaction db now c txId u = .ok db') :
    ∃ tx tx1, findTx db txId = some tx ∧
      (c = tx.buyer_id ∨ c = tx.seller_id) ∧
      tx.status = TxStatus.in_progress ∧
      applyFieldUpdates c tx u = .ok tx1 ∧
      db' = updateTxFinish db now txId tx1 := by
  unfold update_transaction at hok
  cases htx : findTx db txId with
  | none => rw [htx] at hok; exact Except.noConfusion hok
  | some tx =>
    rw [htx] at hok
    cases hpart : (!(c == tx.buyer_id || c == tx.seller_id)) with
    | true => simp [hpart] at hok
    | false =>
      cases hstat : (tx.status == TxStatus.completed || tx.status == TxStatus.cancelled) with
      | true => simp [hpart, hstat] at hok
      | false =>
        cases happ : applyFieldUpdates c tx u with
        | error e => simp [hpart, hstat, happ] at hok
        | ok tx1 =>
          simp only [hpart, hstat, happ, Bool.false_eq_true, if_false] at hok
          refine ⟨tx, tx1, rfl, ?_, ?_, happ, ?_⟩
          · have h := by simpa using hpart
            exact or_iff_not_imp_left.mpr h
          · cases hs : tx.status with
            | in_progress => rfl
            | completed => rw [hs] at hstat; simp at hstat
            | cancelled => rw [hs] at hstat; simp at hstat
          · exact (Except.ok.inj hok).symm

theorem txCore_id {a b : Transaction} (h : txCore a = txCore b) : a.id = b.id :=
  congrArg (fun x => x.1) h

theorem txCore_item {a b : Transaction} (h : txCore a = txCore b) :
    a.item_id = b.item_id :=
  congrArg (fun x => x.2.1) h

theorem txCore_buyer {a b : Transaction} (h : txCore a = txCore b) :
    a.buyer_id = b.buyer_id :=
  congrArg (fun x => x.2.2.1) h

theorem txCore_seller {a b : Transaction} (h : txCore a = txCore b) :
    a.seller_id = b.seller_id :=
  congrArg (fun x => x.2.2.2.1) h

theorem txCore_conv {a b : Transaction} (h : txCore a = txCore b) :
    a.conversation_id = b.conversation_id :=
  congrArg (fun x => x.2.2.2.2.1) h

theorem txCore_breq {a b : Transaction} (h : txCore a = txCore b) :
    a.buy_request_id = b.buy_request_id :=
  congrArg (fun x => x.2.2.2.2.2.1) h

theorem txCore_status {a b : Transaction} (h : txCore a = txCore b) :
    a.status = b.status :=
  congrArg (fun x => x.2.2.2.2.2.2.1) h

theorem txCore_completed {a b : Transaction} (h : txCore a = txCore b) :
    a.completed_date = b.completed_date :=
  congrArg (fun x => x.2.2.2.2.2.2.2) h

/-! ### Effects of `cancellationSideEffects` -/

theorem cancellation_transactions (db : DB) (now : Nat) (txc : Transaction) :
    (cancellationSideEffects db now txc).transactions = db.transactions := rfl

theorem cancellation_item {db : DB} {now : Nat} {txc : Transaction} {item : Item}
    (hit : findItem db txc.item_id = some item) :
    findItem (cancellationSideEffects db now txc) txc.item_id =
      some (if item.status == ItemStatus.reserved
            then { item with status := ItemStatus.available } else item) := by
  show (updateFirst (fun it => it.id == txc.item_id)
    (fun it => if it.status == ItemStatus.reserved
               then { it with status := ItemStatus.available } else it)
    db.items).find? (fun it => it.id == txc.item_id) = _
  exact @find?_updateFirst_of_found Item (fun it => it.id == txc.item_id)
    (fun it => if it.status == ItemStatus.reserved
               then { it with status := ItemStatus.available } else it)
    (fun a ha => by
      cases hc : a.status == ItemStatus.reserved <;> simp [hc] <;> simpa using ha)
    _ _ hit

theorem cancellation_linked {db : DB} {now : Nat} {txc : Transaction}
    {bid : String} {r : BuyRequest} (hbid : txc.buy_request_id = some bid)
    (hfr : findReq db bid = some r) (hacc : r.status = ReqStatus.accepted) :
    findReq (cancellationSideEffects db now txc) bid =
      some { r with status := ReqStatus.cancelled, responded_date := some now } := by
  have e : (match txc.buy_request_id with
    | none => db.buy_requests
    | some b => updateFirst (fun x => x.id == b) (cancelIfAccepted now) db.buy_requests) =
      updateFirst (fun x => x.id == bid) (cancelIfAccepted now) db.buy_requests := by
    rw [hbid]
  show ((match txc.buy_request_id with
    | none => db.buy_requests
    | some b => updateFirst (fun x => x.id == b) (cancelIfAccepted now) db.buy_requests).map
      (fun x : BuyRequest =>
        if x.item_id == txc.item_id && x.buyer_id == txc.buyer_id &&
           x.status == ReqStatus.accepted && !(some x.id == txc.buy_request_id)
        then { x with status := ReqStatus.cancelled, responded_date := some now }
        else x)).find? (fun x : BuyRequest => x.id == bid) = _
  rw [e]
  have hq : ∀ a : BuyRequest, (((fun x : BuyRequest =>
      if x.item_id == txc.item_id && x.buyer_id == txc.buyer_id &&
         x.status == ReqStatus.accepted && !(some x.id == txc.buy_request_id)
      then { x with status := ReqStatus.cancelled, responded_date := some now }
      else x) a).id == bid) = (a.id == bid) := by
    intro a
    show ((if a.item_id == txc.item_id && a.buyer_id == txc.buyer_id &&
        a.status == ReqStatus.accepted && !(some a.id == txc.buy_request_id)
      then { a with status := ReqStatus.cancelled, responded_date := some now }
      else a).id == bid) = (a.id == bid)
    split <;> rfl
  rw [find?_map_pred hq]
  rw [@find?_updateFirst_of_found BuyRequest (fun x => x.id == bid)
    (cancelIfAccepted now) (fun a ha => by simpa [cancelIfAccepted_id] using ha) _ _ hfr]
  rw [cancelIfAccepted_of_accepted hacc, Option.map_some']
  simp

theorem cancellation_safety {db : DB} {now : Nat} {txc : Transaction}
    {r : BuyRequest} (hr : r ∈ db.buy_requests) (hti : r.item_id = txc.item_id)
    (hbuy : r.buyer_id = txc.buyer_id) (hacc : r.status = ReqStatus.accepted)
    (hnid : ¬ some r.id = txc.buy_request_id) :
    { r with status := ReqStatus.cancelled, responded_date := some now } ∈
      (cancellationSideEffects db now txc).buy_requests := by
  show _ ∈ (match txc.buy_request_id with
    | none => db.buy_requests
    | some b => updateFirst (fun x => x.id == b) (cancelIfAccepted now) db.buy_requests).map
      (fun x : BuyRequest =>
        if x.item_id == txc.item_id && x.buyer_id == txc.buyer_id &&
           x.status == ReqStatus.accepted && !(some x.id == txc.buy_request_id)
        then { x with status := ReqStatus.cancelled, responded_date := some now }
        else x)
  have hr1 : r ∈ (match txc.buy_request_id with
    | none => db.buy_requests
    | some b => updateFirst (fun x => x.id == b) (cancelIfAccepted now) db.buy_requests) := by
    cases hc : txc.buy_request_id with
    | none => exact hr
    | some b =>
      refine mem_updateFirst (fun hp => ?_) hr
      exfalso
      apply hnid
      rw [hc]
      have : r.id = b := by simpa using hp
      rw [this]
  have h2 := List.mem_map_of_mem (fun x : BuyRequest =>
    if x.item_id == txc.item_id && x.buyer_id == txc.buyer_id &&
       x.status == ReqStatus.accepted && !(some x.id == txc.buy_request_id)
    then { x with status := ReqStatus.cancelled, responded_date := some now }
    else x) hr1
  have hfx : (fun x : BuyRequest =>
      if x.item_id == txc.item_id && x.buyer_id == txc.buyer_id &&
         x.status == ReqStatus.accepted && !(some x.id == txc.buy_request_id)
      then { x with status := ReqStatus.cancelled, responded_date := some now }
      else x) r = { r with status := ReqStatus.cancelled, responded_date := some now } := by
    show (if r.item_id == txc.item_id && r.buyer_id == txc.buyer_id &&
         r.status == ReqStatus.accepted && !(some r.id == txc.buy_request_id)
      then { r with status := ReqStatus.cancelled, responded_date := some now }
      else r) = _
    rw [if_pos (by simp [hti, hbuy, hacc, hnid])]
  rw [← hfx]
  exact h2

/-! ### Claim theorems -/

/-- C1: for an in-progress transaction, when an update call leaves
`buyer_confirmed` and `seller_confirmed` both true, the transaction becomes
`completed` with `completed_date` set to the server-side now, the item becomes
`sold`, the seller's `total_sales` is incremented by one, every other
in-progress transaction for the same item becomes `cancelled` (and its linked
accepted buy request becomes `cancelled`), and every remaining pending buy
request for the same item becomes `rejected`. -/
theorem C1_completion_cascade
    {db : DB} {now : Nat} {caller txId : String} {u : TransactionUpdate}
    {db' : DB} {tx tx1 : Transaction} {item : Item} {seller : User}
    (htx : findTx db txId = some tx)
    (happ : applyFieldUpdates caller tx u = .ok tx1)
    (hb : tx1.buyer_confirmed = true) (hs : tx1.seller_confirmed = true)
    (hit : findItem db tx.item_id = some item)
    (hus : findUser db tx.seller_id = some seller)
    (hok : update_transaction db now caller txId u = .ok db') :
    findTx db' txId =
        some { tx1 with status := TxStatus.completed, completed_date := some now } ∧
    findItem db' tx.item_id = some { item with status := ItemStatus.sold } ∧
    findUser db' tx.seller_id =
        some { seller with total_sales := seller.total_sales + 1 } ∧
    (∀ t ∈ db.transactions, ¬ t.id = txId → t.item_id = tx.item_id →
      t.status = TxStatus.in_progress →
      { t with status := TxStatus.cancelled, completed_date := some now } ∈
        db'.transactions) ∧
    (∀ t ∈ db.transactions, ¬ t.id = txId → t.item_id = tx.item_id →
      t.status = TxStatus.in_progress →
      ∀ bid r, t.buy_request_id = some bid → findReq db bid = some r →
        r.status = ReqStatus.accepted →
        findReq db' bid =
          some { r with status := ReqStatus.cancelled, responded_date := some now }) ∧
    (∀ r ∈ db.buy_requests, r.item_id = tx.item_id → r.status = ReqStatus.pending →
      { r with status := ReqStatus.rejected, responded_date := some now } ∈
        db'.buy_requests) := by
  obtain ⟨tx0, tx10, htx0, hpart, hst0, happ0, hdb'⟩ := update_transaction_ok_inv hok
  have e1 : tx0 = tx := Option.some.inj (htx0.symm.trans htx)
  subst tx0
  have e2 : tx10 = tx1 := Except.ok.inj (happ0.symm.trans happ)
  subst tx10
  have hcore := applyFieldUpdates_core happ
  have hstat1 : tx1.status = TxStatus.in_progress := (txCore_status hcore).trans hst0
  have hid1 : tx1.id = tx.id := txCore_id hcore
  have hitem1 : tx1.item_id = tx.item_id := txCore_item hcore
  have hsell1 : tx1.seller_id = tx.seller_id := txCore_seller hcore
  have htxid : tx.id = txId := by
    have := List.find?_some htx
    simpa using this
  rw [updateTxFinish_complete hb hs hstat1] at hdb'
  subst hdb'
  set txc : Transaction :=
    { tx1 with status := TxStatus.completed, completed_date := some now } with htxc
  have hicid : txc.id = txId := by rw [htxc]; show tx1.id = txId; rw [hid1, htxid]
  have hicitem : txc.item_id = tx.item_id := by rw [htxc]; exact hitem1
  have hicsell : txc.seller_id = tx.seller_id := by rw [htxc]; exact hsell1
  have hT : (completionSideEffects db now txc).transactions =
      db.transactions.map (cancelOtherTx now txc.item_id txc.id) := rfl
  have hI : (completionSideEffects db now txc).items =
      updateFirst (fun it => it.id == txc.item_id)
        (fun it => { it with status := ItemStatus.sold }) db.items := rfl
  have hU : (completionSideEffects db now txc).users =
      updateFirst (fun v => v.id == txc.seller_id)
        (fun v => { v with total_sales := v.total_sales + 1 }) db.users := rfl
  have hR : (completionSideEffects db now txc).buy_requests =
      (cancelLinkedReqs now
        ((db.transactions.filter (fun t => t.item_id == txc.item_id &&
          !(t.id == txc.id) && t.status == TxStatus.in_progress)).filterMap
          (fun t => t.buy_request_id)) db.buy_requests).map
        (rejectPending now txc.item_id) := rfl
  refine ⟨?_, ?_, ?_, ?_, ?_, ?_⟩
  · show (updateFirst (fun t => t.id == txId) (fun _ => txc)
      (completionSideEffects db now txc).transactions).find? (fun t => t.id == txId) = some txc
    rw [hT]
    have hfind : (db.transactions.map (cancelOtherTx now txc.item_id txc.id)).find?
        (fun t => t.id == txId) = some tx := by
      rw [find?_map_pred (fun a => by simp [cancelOtherTx_id])]
      rw [show db.transactions.find? (fun t => t.id == txId) = some tx from htx]
      rw [Option.map_some']
      rw [cancelOtherTx_of_other (htxid.trans hicid.symm)]
    have := @find?_updateFirst_of_found Transaction (fun t => t.id == txId)
      (fun _ => txc) (fun a _ => by simpa using hicid) _ _ hfind
    simpa using this
  · show (updateFirst (fun it => it.id == txc.item_id)
      (fun it => { it with status := ItemStatus.sold }) db.items).find?
      (fun it => it.id == tx.item_id) = some { item with status := ItemStatus.sold }
    rw [hicitem]
    exact @find?_updateFirst_of_found Item (fun it => it.id == tx.item_id)
      (fun it => { it with status := ItemStatus.sold }) (fun a ha => ha) _ _ hit
  · show (updateFirst (fun v => v.id == txc.seller_id)
      (fun v => { v with total_sales := v.total_sales + 1 }) db.users).find?
      (fun v => v.id == tx.seller_id) =
      some { seller with total_sales := seller.total_sales + 1 }
    rw [hicsell]
    exact @find?_updateFirst_of_found User (fun v => v.id == tx.seller_id)
      (fun v => { v with total_sales := v.total_sales + 1 }) (fun a ha => ha) _ _ hus
  · intro t ht hne hti hts
    have h1 : cancelOtherTx now txc.item_id txc.id t =
        { t with status := TxStatus.cancelled, completed_date := some now } :=
      cancelOtherTx_of_match (hti.trans hicitem.symm)
        (fun hc : t.id = txc.id => hne (hc.trans hicid)) hts
    have h2 := List.mem_map_of_mem (cancelOtherTx now txc.item_id txc.id) ht
    rw [h1] at h2
    show _ ∈ updateFirst (fun t => t.id == txId) (fun _ => txc)
      (completionSideEffects db now txc).transactions
    rw [hT]
    exact mem_updateFirst (fun hp => absurd (by simpa using hp) hne) h2
  · intro t ht hne hti hts bid r hbid hfr hacc
    show ((completionSideEffects db now txc).buy_requests).find? (fun a => a.id == bid) = _
    rw [hR]
    have hmemb : bid ∈ (db.transactions.filter (fun t => t.item_id == txc.item_id &&
        !(t.id == txc.id) && t.status == TxStatus.in_progress)).filterMap
        (fun t => t.buy_request_id) := by
      refine List.mem_filterMap.2 ⟨t, List.mem_filter.2 ⟨ht, ?_⟩, hbid⟩
      have hcnid : ¬ t.id = txc.id := fun hc => hne (hc.trans hicid)
      simp [hti, hicitem, hts, hcnid, hitem1]
    have hf1 := @cancelLinkedReqs_find? now bid r hacc _ db.buy_requests hmemb hfr
    rw [find?_map_pred (fun a => by simp [rejectPending_id])]
    rw [hf1, Option.map_some']
    rw [rejectPending_of_not_pending (by simp)]
  · intro r hr hti hst
    have hfix : cancelIfAccepted now r = r :=
      cancelIfAccepted_of_not (by rw [hst]; simp)
    have h1 := mem_cancelLinkedReqs hfix
      ((db.transactions.filter (fun t => t.item_id == txc.item_id &&
        !(t.id == txc.id) && t.status == TxStatus.in_progress)).filterMap
        (fun t => t.buy_request_id)) db.buy_requests hr
    have h2 := List.mem_map_of_mem (rejectPending now txc.item_id) h1
    rw [rejectPending_of_pending (hti.trans hicitem.symm) hst] at h2
    show _ ∈ (completionSideEffects db now txc).buy_requests
    rw [hR]
    exact h2

/-- C1 witness: in the concrete two-transaction state, the seller's confirming
update completes transaction `t1` at tick 7. -/
theorem C1_completion_cascade_witness :
    findTx c1dbAfter "t1" =
      some { c1tx1 with status := TxStatus.completed, completed_date := some 7 } :=
  (@C1_completion_cascade c1db 7 "s" "t1" c1upd c1dbAfter wT1 c1tx1 wItemReserved
    wSeller rfl rfl rfl rfl rfl rfl rfl).1

/-- C3: for an in-progress transaction, when an update call leaves
`buyer_cancel_confirmed` and `seller_cancel_confirmed` both true and the
completion trigger did not fire, the transaction becomes `cancelled` with
`completed_date` set, the item reverts to `available` only if it was
`reserved`, the linked buy request becomes `cancelled` if it was `accepted`,
and any other accepted buy request for the same (item, buyer) pair also
becomes `cancelled`. -/
theorem C3_mutual_cancellation
    {db : DB} {now : Nat} {caller txId : String} {u : TransactionUpdate}
    {db' : DB} {tx tx1 : Transaction} {item : Item}
    (htx : findTx db txId = some tx)
    (happ : applyFieldUpdates caller tx u = .ok tx1)
    (hnc : (tx1.buyer_confirmed && tx1.seller_confirmed) = false)
    (hbc : tx1.buyer_cancel_confirmed = true)
    (hsc : tx1.seller_cancel_confirmed = true)
    (hit : findItem db tx.item_id = some item)
    (hok : update_transaction db now caller txId u = .ok db') :
    findTx db' txId =
        some { tx1 with status := TxStatus.cancelled, completed_date := some now } ∧
    (item.status = ItemStatus.reserved →
      findItem db' tx.item_id = some { item with status := ItemStatus.available }) ∧
    (¬ item.status = ItemStatus.reserved → findItem db' tx.item_id = some item) ∧
    (∀ bid r, tx.buy_request_id = some bid → findReq db bid = some r →
      r.status = ReqStatus.accepted →
      findReq db' bid =
        some { r with status := ReqStatus.cancelled, responded_date := some now }) ∧
    (∀ r ∈ db.buy_requests, r.item_id = tx.item_id → r.buyer_id = tx.buyer_id →
      r.status = ReqStatus.accepted → ¬ some r.id = tx.buy_request_id →
      { r with status := ReqStatus.cancelled, responded_date := some now } ∈
        db'.buy_requests) := by
  obtain ⟨tx0, tx10, htx0, hpart, hst0, happ0, hdb'⟩ := update_transaction_ok_inv hok
  have e1 : tx0 = tx := Option.some.inj (htx0.symm.trans htx)
  subst tx0
  have e2 : tx10 = tx1 := Except.ok.inj (happ0.symm.trans happ)
  subst tx10
  have hcore := applyFieldUpdates_core happ
  have hstat1 : tx1.status = TxStatus.in_progress := (txCore_status hcore).trans hst0
  have hid1 : tx1.id = tx.id := txCore_id hcore
  have hitem1 : tx1.item_id = tx.item_id := txCore_item hcore
  have hbuy1 : tx1.buyer_id = tx.buyer_id := txCore_buyer hcore
  have hbrq1 : tx1.buy_request_id = tx.buy_request_id := txCore_breq hcore
  have htxid : tx.id = txId := by
    have := List.find?_some htx
    simpa using this
  rw [updateTxFinish_cancel hnc hbc hsc hstat1] at hdb'
  subst hdb'
  set txc : Transaction :=
    { tx1 with status := TxStatus.cancelled, completed_date := some now } with htxc
  have hicid : txc.id = txId := by rw [htxc]; show tx1.id = txId; rw [hid1, htxid]
  have hicitem : txc.item_id = tx.item_id := by rw [htxc]; exact hitem1
  have hicbuy : txc.buyer_id = tx.buyer_id := by rw [htxc]; exact hbuy1
  have hicbrq : txc.buy_request_id = tx.buy_request_id := by rw [htxc]; exact hbrq1
  refine ⟨?_, ?_, ?_, ?_, ?_⟩
  · show (updateFirst (fun t => t.id == txId) (fun _ => txc)
      (cancellationSideEffects db now txc).transactions).find?
        (fun t => t.id == txId) = some txc
    rw [cancellation_transactions]
    have := @find?_updateFirst_of_found Transaction (fun t => t.id == txId)
      (fun _ => txc) (fun a _ => by simpa using hicid) _ _ htx
    simpa using this
  · intro hres
    have h := @cancellation_item db now txc item
      (by show findItem db txc.item_id = some item; rw [hicitem]; exact hit)
    rw [if_pos (by simp [hres])] at h
    rw [hicitem] at h
    exact h
  · intro hres
    have h := @cancellation_item db now txc item
      (by show findItem db txc.item_id = some item; rw [hicitem]; exact hit)
    rw [if_neg (by simp [hres])] at h
    rw [hicitem] at h
    exact h
  · intro bid r hbid hfr hacc
    exact cancellation_linked (by rw [hicbrq]; exact hbid) hfr hacc
  · intro r hr hti hbuy hacc hnid
    exact cancellation_safety hr (hti.trans hicitem.symm) (hbuy.trans hicbuy.symm)
      hacc (by rw [hicbrq]; exact hnid)

/-- C3 witness: with the buyer's cancel flag already set, the seller's
cancel-confirming update at tick 9 cancels `t1`. -/
theorem C3_mutual_cancellation_witness :
    findTx c3dbAfter "t1" =
      some { c3tx1 with status := TxStatus.cancelled, completed_date := some 9 } :=
  (@C3_mutual_cancellation c3db 9 "s" "t1" c3upd c3dbAfter c3t1 c3tx1
    wItemReserved rfl rfl rfl rfl rfl rfl rfl).1

/-- C6: the unilateral cancel requires the caller to be the buyer or the
seller, fails with the state error exactly when the transaction is completed,
and on success sets the transaction to `cancelled`, reverts the item from
`reserved` to `available`, cancels the linked accepted buy request and any
other accepted buy request for the same (item, buyer) pair — the same side
effects as the mutual-confirmation cancellation path. -/
theorem C6_unilateral_cancel
    {db : DB} {now : Nat} {caller txId : String} {tx : Transaction}
    (htx : findTx db txId = some tx) :
    (¬(caller = tx.buyer_id ∨ caller = tx.seller_id) →
      cancel_transaction db now caller txId =
        .error (403, "You can only cancel your own transactions")) ∧
    ((caller = tx.buyer_id ∨ caller = tx.seller_id) →
      tx.status = TxStatus.completed →
      cancel_transaction db now caller txId =
        .error (400, "Cannot cancel a completed transaction")) ∧
    ((caller = tx.buyer_id ∨ caller = tx.seller_id) →
      ¬ tx.status = TxStatus.completed →
      (cancel_transaction db now caller txId).isOk = true) ∧
    (∀ db', cancel_transaction db now caller txId = .ok db' →
      findTx db' txId =
          some { tx with status := TxStatus.cancelled, completed_date := some now } ∧
      (∀ item, findItem db tx.item_id = some item →
        (item.status = ItemStatus.reserved →
          findItem db' tx.item_id = some { item with status := ItemStatus.available }) ∧
        (¬ item.status = ItemStatus.reserved → findItem db' tx.item_id = some item)) ∧
      (∀ bid r, tx.buy_request_id = some bid → findReq db bid = some r →
        r.status = ReqStatus.accepted →
        findReq db' bid =
          some { r with status := ReqStatus.cancelled, responded_date := some now }) ∧
      (∀ r ∈ db.buy_requests, r.item_id = tx.item_id → r.buyer_id = tx.buyer_id →
        r.status = ReqStatus.accepted → ¬ some r.id = tx.buy_request_id →
        { r with status := ReqStatus.cancelled, responded_date := some now } ∈
          db'.buy_requests)) := by
  refine ⟨?_, ?_, ?_, ?_⟩
  · intro hnp
    have h1 : ¬ caller = tx.buyer_id := fun h => hnp (Or.inl h)
    have h2 : ¬ caller = tx.seller_id := fun h => hnp (Or.inr h)
    simp [cancel_transaction, htx, h1, h2]
  · intro hp hcomp
    rcases hp with h | h <;> subst h <;> simp [cancel_transaction, htx, hcomp]
  · intro hp hncomp
    rcases hp with h | h <;> subst h <;>
      simp [cancel_transaction, htx, hncomp, Except.isOk] <;> rfl
  · intro db' hok
    unfold cancel_transaction at hok
    rw [htx] at hok
    cases hpart : (!(caller == tx.buyer_id || caller == tx.seller_id)) with
    | true => simp [hpart] at hok
    | false =>
      cases hcomp : (tx.status == TxStatus.completed) with
      | true => simp [hpart, hcomp] at hok
      | false =>
        simp only [hpart, hcomp, Bool.false_eq_true, if_false] at hok
        obtain rfl := Except.ok.inj hok
        have htxid : tx.id = txId := by
          have := List.find?_some htx
          simpa using this
        set txc : Transaction :=
          { tx with status := TxStatus.cancelled, completed_date := some now } with htxc
        have hcid : txc.id = txId := by rw [htxc]; exact htxid
        refine ⟨?_, ?_, ?_, ?_⟩
        · show (updateFirst (fun t => t.id == txId) (fun _ => txc)
            (cancellationSideEffects db now txc).transactions).find?
            (fun t => t.id == txId) = some txc
          rw [cancellation_transactions]
          have := @find?_updateFirst_of_found Transaction (fun t => t.id == txId)
            (fun _ => txc) (fun a _ => by simpa using hcid) _ _ htx
          simpa using this
        · intro item hit
          have hit' : findItem db txc.item_id = some item := by
            rw [htxc]; exact hit
          constructor
          · intro hres
            have h := @cancellation_item db now txc item hit'
            rw [if_pos (by simp [hres])] at h
            have hkey : txc.item_id = tx.item_id := by rw [htxc]
            rw [hkey] at h
            exact h
          · intro hres
            have h := @cancellation_item db now txc item hit'
            rw [if_neg (by simp [hres])] at h
            have hkey : txc.item_id = tx.item_id := by rw [htxc]
            rw [hkey] at h
            exact h
        · intro bid r hbid hfr hacc
          exact @cancellation_linked db now txc bid r (by rw [htxc]; exact hbid) hfr hacc
        · intro r hr hti hbuy hacc hnid
          exact @cancellation_safety db now txc r hr (by rw [htxc]; exact hti)
            (by rw [htxc]; exact hbuy) hacc (by rw [htxc]; exact hnid)

/-- C6 witness: the buyer unilaterally cancels the in-progress transaction
`t1` at tick 11. -/
theorem C6_unilateral_cancel_witness :
    findTx c6dbAfter "t1" =
      some { wT1 with status := TxStatus.cancelled, completed_date := some 11 } :=
  ((@C6_unilateral_cancel c1db 11 "b" "t1" wT1 rfl).2.2.2 c6dbAfter rfl).1

theorem applyFieldUpdates_status_agnostic (c : String) (tx : Transaction)
    (u : TransactionUpdate) (s : Option String) :
    applyFieldUpdates c tx { u with status := s } = applyFieldUpdates c tx u := by
  cases u; rfl

/-- C10: the client-supplied `status` field of the update payload is never
applied: the call's result does not depend on it, and when neither
mutual-confirmation trigger fires, a successful update leaves the
transaction's status equal to its prior status. -/
theorem C10_status_field_ignored
    {db : DB} {now : Nat} {caller txId : String} (u : TransactionUpdate) :
    (∀ s : Option String,
      update_transaction db now caller txId { u with status := s } =
        update_transaction db now caller txId u) ∧
    (∀ tx tx1 db', findTx db txId = some tx →
      applyFieldUpdates caller tx u = .ok tx1 →
      (tx1.buyer_confirmed && tx1.seller_confirmed) = false →
      (tx1.buyer_cancel_confirmed && tx1.seller_cancel_confirmed) = false →
      update_transaction db now caller txId u = .ok db' →
      findTx db' txId = some tx1 ∧ tx1.status = tx.status) := by
  constructor
  · intro s
    unfold update_transaction
    simp only [applyFieldUpdates_status_agnostic]
  · intro tx tx1 db' htx happ hnc hncc hok
    obtain ⟨tx0, tx10, htx0, hpart, hst0, happ0, hdb'⟩ := update_transaction_ok_inv hok
    have e1 : tx0 = tx := Option.some.inj (htx0.symm.trans htx)
    subst tx0
    have e2 : tx10 = tx1 := Except.ok.inj (happ0.symm.trans happ)
    subst tx10
    have hcore := applyFieldUpdates_core happ
    rw [updateTxFinish_none hnc hncc] at hdb'
    subst hdb'
    have htxid1 : tx1.id = txId := by
      have h1 := List.find?_some htx
      have h2 : tx.id = txId := by simpa using h1
      exact (txCore_id hcore).trans h2
    constructor
    · show (updateFirst (fun t => t.id == txId) (fun _ => tx1)
        db.transactions).find? (fun t => t.id == txId) = some tx1
      have := @find?_updateFirst_of_found Transaction (fun t => t.id == txId)
        (fun _ => tx1) (fun a _ => by simpa using htxid1) _ _ htx
      simpa using this
    · exact txCore_status hcore

/-- C10 witness: a meetup-only update by the buyer leaves the status of `t1`
unchanged at `in_progress`. -/
theorem C10_status_field_ignored_witness :
    findTx c10dbAfter "t1" = some { wT1 with meetup_place := some "GSU" } ∧
    ({ wT1 with meetup_place := some "GSU" } : Transaction).status = wT1.status :=
  (@C10_status_field_ignored c1db 5 "b" "t1" c10upd).2 wT1
    { wT1 with meetup_place := some "GSU" } c10dbAfter rfl rfl rfl rfl rfl

theorem except_bind_ok_left {α β : Type} {a : α} {f : α → Except Exc β} :
    ((Except.ok a : Except Exc α) >>= f) = f a := rfl

theorem applyBuyerConfirmed_err {c : String} {u : TransactionUpdate}
    {tx : Transaction} {b : Bool} (hu : u.buyer_confirmed = some b)
    (hc : ¬ c = tx.buyer_id) :
    applyBuyerConfirmed c u tx =
      .error (403, "Only the buyer can set buyer_confirmed") := by
  unfold applyBuyerConfirmed
  simp only [hu]
  rw [if_pos (by simp [Ne.symm hc])]

theorem applySellerConfirmed_err {c : String} {u : TransactionUpdate}
    {tx : Transaction} {b : Bool} (hu : u.seller_confirmed = some b)
    (hc : ¬ c = tx.seller_id) :
    applySellerConfirmed c u tx =
      .error (403, "Only the seller can set seller_confirmed") := by
  unfold applySellerConfirmed
  simp only [hu]
  rw [if_pos (by simp [Ne.symm hc])]

theorem applyBuyerCancelConfirmed_err {c : String} {u : TransactionUpdate}
    {tx : Transaction} {b : Bool} (hu : u.buyer_cancel_confirmed = some b)
    (hc : ¬ c = tx.buyer_id) :
    applyBuyerCancelConfirmed c u tx =
      .error (403, "Only the buyer can set buyer_cancel_confirmed") := by
  unfold applyBuyerCancelConfirmed
  simp only [hu]
  rw [if_pos (by simp [Ne.symm hc])]

theorem applySellerCancelConfirmed_err {c : String} {u : TransactionUpdate}
    {tx : Transaction} {b : Bool} (hu : u.seller_cancel_confirmed = some b)
    (hc : ¬ c = tx.seller_id) :
    applySellerCancelConfirmed c u tx =
      .error (403, "Only the seller can set seller_cancel_confirmed") := by
  unfold applySellerCancelConfirmed
  simp only [hu]
  rw [if_pos (by simp [Ne.symm hc])]

theorem applyBuyerConfirmed_ok_of {c : String} {u : TransactionUpdate}
    {tx : Transaction} (h : u.buyer_confirmed = none ∨ c = tx.buyer_id) :
    ∃ a, applyBuyerConfirmed c u tx = .ok a ∧ txCore a = txCore tx := by
  unfold applyBuyerConfirmed
  cases hu : u.buyer_confirmed with
  | none => exact ⟨tx, rfl, rfl⟩
  | some b =>
    have hcb : c = tx.buyer_id := by
      rcases h with h | h
      · rw [hu] at h; exact Option.noConfusion h
      · exact h
    refine ⟨{ tx with buyer_confirmed := b }, ?_, rfl⟩
    show (if !(tx.buyer_id == c) then Except.error (403, "Only the buyer can set buyer_confirmed")
          else Except.ok { tx with buyer_confirmed := b }) = Except.ok { tx with buyer_confirmed := b }
    rw [if_neg (by simp [hcb])]

theorem applySellerConfirmed_ok_of {c : String} {u : TransactionUpdate}
    {tx : Transaction} (h : u.seller_confirmed = none ∨ c = tx.seller_id) :
    ∃ a, applySellerConfirmed c u tx = .ok a ∧ txCore a = txCore tx := by
  unfold applySellerConfirmed
  cases hu : u.seller_confirmed with
  | none => exact ⟨tx, rfl, rfl⟩
  | some b =>
    have hcb : c = tx.seller_id := by
      rcases h with h | h
      · rw [hu] at h; exact Option.noConfusion h
      · exact h
    refine ⟨{ tx with seller_confirmed := b }, ?_, rfl⟩
    show (if !(tx.seller_id == c) then Except.error (403, "Only the seller can set seller_confirmed")
          else Except.ok { tx with seller_confirmed := b }) = Except.ok { tx with seller_confirmed := b }
    rw [if_neg (by simp [hcb])]

theorem applyBuyerCancelConfirmed_ok_of {c : String} {u : TransactionUpdate}
    {tx : Transaction} (h : u.buyer_cancel_confirmed = none ∨ c = tx.buyer_id) :
    ∃ a, applyBuyerCancelConfirmed c u tx = .ok a ∧ txCore a = txCore tx := by
  unfold applyBuyerCancelConfirmed
  cases hu : u.buyer_cancel_confirmed with
  | none => exact ⟨tx, rfl, rfl⟩
  | some b =>
    have hcb : c = tx.buyer_id := by
      rcases h with h | h
      · rw [hu] at h; exact Option.noConfusion h
      · exact h
    refine ⟨{ tx with buyer_cancel_confirmed := b }, ?_, rfl⟩
    show (if !(tx.buyer_id == c) then Except.error (403, "Only the buyer can set buyer_cancel_confirmed")
          else Except.ok { tx with buyer_cancel_confirmed := b }) = Except.ok { tx with buyer_cancel_confirmed := b }
    rw [if_neg (by simp [hcb])]

theorem applyFieldUpdates_flags_none {c : String} {tx : Transaction}
    {u : TransactionUpdate} (h1 : u.buyer_confirmed = none)
    (h2 : u.seller_confirmed = none) (h3 : u.buyer_cancel_confirmed = none)
    (h4 : u.seller_cancel_confirmed = none) :
    applyFieldUpdates c tx u = .ok (applyMeetupFields u tx) := by
  unfold applyFieldUpdates applyBuyerConfirmed applySellerConfirmed
    applyBuyerCancelConfirmed applySellerCancelConfirmed
  simp only [h1, h2, h3, h4, except_bind_ok_left]
  rfl

theorem update_transaction_wraps {db : DB} {now : Nat} {caller txId : String}
    {tx : Transaction} {u : TransactionUpdate} {e : Exc}
    (htx : findTx db txId = some tx)
    (hp : caller = tx.buyer_id ∨ caller = tx.seller_id)
    (hst : tx.status = TxStatus.in_progress)
    (herr : applyFieldUpdates caller tx u = .error e) :
    update_transaction db now caller txId u =
      .error (500, "Failed to update transaction: " ++ excStr e) := by
  have hpb : (caller == tx.buyer_id || caller == tx.seller_id) = true := by
    rcases hp with h | h <;> simp [h]
  unfold update_transaction
  simp only [htx]
  rw [if_neg (by simp [hpb])]
  rw [if_neg (by simp [hst])]
  simp only [herr]

theorem update_transaction_isOk {db : DB} {now : Nat} {caller txId : String}
    {tx tx1 : Transaction} {u : TransactionUpdate}
    (htx : findTx db txId = some tx)
    (hp : caller = tx.buyer_id ∨ caller = tx.seller_id)
    (hst : tx.status = TxStatus.in_progress)
    (hap : applyFieldUpdates caller tx u = .ok tx1) :
    (update_transaction db now caller txId u).isOk = true := by
  have hpb : (caller == tx.buyer_id || caller == tx.seller_id) = true := by
    rcases hp with h | h <;> simp [h]
  unfold update_transaction
  simp only [htx]
  rw [if_neg (by simp [hpb])]
  rw [if_neg (by simp [hst])]
  simp only [hap]
  rfl

/-- C8 counterexample: when the buyer tries to set `seller_confirmed`, the
403 raised inside the handler's `try` is caught by the blanket
`except Exception` and re-surfaced as a 500, so the call does not fail with a
403 authorization response as the claim states. -/
theorem C8_auth_wrapped_counterexample :
    errStatusCode (update_transaction c1db 0 "b" "t1" c1upd) = some 500 ∧
    update_transaction c1db 0 "b" "t1" c1upd =
      .error (500,
        "Failed to update transaction: 403: Only the seller can set seller_confirmed") ∧
    (500 : Nat) ≠ 403 :=
  ⟨rfl, rfl, by decide⟩

/-- C8 (amended): the update fails with the state error when the transaction
is completed or cancelled; a caller attempting to set a flag of the other
side is rejected, but the 403 authorization error is surfaced wrapped inside
a 500 "Failed to update transaction" response (the handler's blanket
exception clause catches the HTTPException); meetup fields are settable by
either participant. -/
theorem C8_update_errors
    {db : DB} {now : Nat} {caller txId : String} {u : TransactionUpdate}
    {tx : Transaction} (htx : findTx db txId = some tx)
    (hp : caller = tx.buyer_id ∨ caller = tx.seller_id) :
    (tx.status = TxStatus.completed ∨ tx.status = TxStatus.cancelled →
      update_transaction db now caller txId u =
        .error (400, "Cannot modify a " ++ txStatusStr tx.status ++ " transaction")) ∧
    (tx.status = TxStatus.in_progress →
      (∀ b, u.buyer_confirmed = some b → ¬ caller = tx.buyer_id →
        update_transaction db now caller txId u =
          .error (500,
            "Failed to update transaction: 403: Only the buyer can set buyer_confirmed")) ∧
      (∀ b, u.seller_confirmed = some b → ¬ caller = tx.seller_id →
        (u.buyer_confirmed = none ∨ caller = tx.buyer_id) →
        update_transaction db now caller txId u =
          .error (500,
            "Failed to update transaction: 403: Only the seller can set seller_confirmed")) ∧
      (∀ b, u.buyer_cancel_confirmed = some b → ¬ caller = tx.buyer_id →
        (u.buyer_confirmed = none ∨ caller = tx.buyer_id) →
        (u.seller_confirmed = none ∨ caller = tx.seller_id) →
        update_transaction db now caller txId u =
          .error (500,
            "Failed to update transaction: 403: Only the buyer can set buyer_cancel_confirmed")) ∧
      (∀ b, u.seller_cancel_confirmed = some b → ¬ caller = tx.seller_id →
        (u.buyer_confirmed = none ∨ caller = tx.buyer_id) →
        (u.seller_confirmed = none ∨ caller = tx.seller_id) →
        (u.buyer_cancel_confirmed = none ∨ caller = tx.buyer_id) →
        update_transaction db now caller txId u =
          .error (500,
            "Failed to update transaction: 403: Only the seller can set seller_cancel_confirmed")) ∧
      (u.buyer_confirmed = none → u.seller_confirmed = none →
        u.buyer_cancel_confirmed = none → u.seller_cancel_confirmed = none →
        (update_transaction db now caller txId u).isOk = true)) := by
  constructor
  · intro hterm
    have hpb : (caller == tx.buyer_id || caller == tx.seller_id) = true := by
      rcases hp with h | h <;> simp [h]
    unfold update_transaction
    simp only [htx]
    rw [if_neg (by simp [hpb])]
    rw [if_pos (by rcases hterm with h | h <;> simp [h])]
  · intro hin
    refine ⟨?_, ?_, ?_, ?_, ?_⟩
    · intro b hub hcb
      have herr : applyFieldUpdates caller tx u =
          .error (403, "Only the buyer can set buyer_confirmed") := by
        unfold applyFieldUpdates
        exact except_bind_error (applyBuyerConfirmed_err hub hcb)
      exact update_transaction_wraps htx hp hin herr
    · intro b hus hcs hpre1
      obtain ⟨a1, ha1, hc1⟩ := applyBuyerConfirmed_ok_of hpre1
      have herr : applyFieldUpdates caller tx u =
          .error (403, "Only the seller can set seller_confirmed") := by
        unfold applyFieldUpdates
        simp only [ha1, except_bind_ok_left]
        exact except_bind_error (applySellerConfirmed_err hus
          (fun h => hcs (h.trans (txCore_seller hc1))))
      exact update_transaction_wraps htx hp hin herr
    · intro b hubc hcb hpre1 hpre2
      obtain ⟨a1, ha1, hc1⟩ := applyBuyerConfirmed_ok_of hpre1
      have hpre2' : u.seller_confirmed = none ∨ caller = a1.seller_id := by
        rcases hpre2 with h | h
        · exact Or.inl h
        · exact Or.inr (h.trans (txCore_seller hc1).symm)
      obtain ⟨a2, ha2, hc2⟩ := applySellerConfirmed_ok_of hpre2'
      have herr : applyFieldUpdates caller tx u =
          .error (403, "Only the buyer can set buyer_cancel_confirmed") := by
        unfold applyFieldUpdates
        simp only [ha1, ha2, except_bind_ok_left]
        exact except_bind_error (applyBuyerCancelConfirmed_err hubc
          (fun h => hcb (h.trans ((txCore_buyer hc2).trans (txCore_buyer hc1)))))
      exact update_transaction_wraps htx hp hin herr
    · intro b husc hcs hpre1 hpre2 hpre3
      obtain ⟨a1, ha1, hc1⟩ := applyBuyerConfirmed_ok_of hpre1
      have hpre2' : u.seller_confirmed = none ∨ caller = a1.seller_id := by
        rcases hpre2 with h | h
        · exact Or.inl h
        · exact Or.inr (h.trans (txCore_seller hc1).symm)
      obtain ⟨a2, ha2, hc2⟩ := applySellerConfirmed_ok_of hpre2'
      have hpre3' : u.buyer_cancel_confirmed = none ∨ caller = a2.buyer_id := by
        rcases hpre3 with h | h
        · exact Or.inl h
        · exact Or.inr (h.trans ((txCore_buyer hc1).symm.trans (txCore_buyer hc2).symm))
      obtain ⟨a3, ha3, hc3⟩ := applyBuyerCancelConfirmed_ok_of hpre3'
      have herr : applyFieldUpdates caller tx u =
          .error (403, "Only the seller can set seller_cancel_confirmed") := by
        unfold applyFieldUpdates
        simp only [ha1, ha2, ha3, except_bind_ok_left]
        exact except_bind_error (applySellerCancelConfirmed_err husc
          (fun h => hcs (h.trans (((txCore_seller hc3).trans (txCore_seller hc2)).trans
            (txCore_seller hc1)))))
      exact update_transaction_wraps htx hp hin herr
    · intro h1 h2 h3 h4
      exact update_transaction_isOk htx hp hin (applyFieldUpdates_flags_none h1 h2 h3 h4)

/-- C8 witness: on the completed transaction state reached in the C1 witness
scenario, a further update by the buyer is rejected with the state error. -/
theorem C8_update_errors_witness :
    update_transaction c1dbAfter 8 "b" "t1" c10upd =
      .error (400, "Cannot modify a completed transaction") :=
  (@C8_update_errors c1dbAfter 8 "b" "t1" c10upd
    { c1tx1 with status := TxStatus.completed, completed_date := some 7 }
    (by rfl) (Or.inl rfl)).1 (Or.inl rfl)

/-- C2: accepting a buy request fails with the authorization error unless the
caller is the request's seller, with the state error unless the request is
pending, and with the conflict errors when the item is not available or an
in-progress transaction already exists for it; on success the request becomes
`accepted` with `responded_date`, every other pending request for the item is
`rejected`, exactly one new in-progress transaction linked to the request is
appended, and the item becomes `reserved`. -/
theorem C2_accept_buy_request
    {db : DB} {now : Nat} {caller reqId newTxId : String} {breq : BuyRequest}
    (hreq : findReq db reqId = some breq) :
    (¬ caller = breq.seller_id →
      accept_buy_request db now caller reqId newTxId =
        .error (403, "Only the seller can accept buy requests")) ∧
    (caller = breq.seller_id → ¬ breq.status = ReqStatus.pending →
      accept_buy_request db now caller reqId newTxId =
        .error (400, "Buy request is already " ++ reqStatusStr breq.status)) ∧
    (caller = breq.seller_id → breq.status = ReqStatus.pending →
      ∀ item, findItem db breq.item_id = some item →
        (¬ item.status = ItemStatus.available →
          accept_buy_request db now caller reqId newTxId =
            .error (400, "Item is " ++ itemStatusStr item.status ++
              " and cannot be purchased")) ∧
        (item.status = ItemStatus.available →
          ((findInProgressTxForItem db breq.item_id).isSome = true →
            accept_buy_request db now caller reqId newTxId =
              .error (400, "Item already has an in-progress transaction")) ∧
          (findInProgressTxForItem db breq.item_id = none →
            (accept_buy_request db now caller reqId newTxId).isOk = true) ∧
          (findInProgressTxForItem db breq.item_id = none →
            ∀ db', accept_buy_request db now caller reqId newTxId = .ok db' →
              findReq db' reqId =
                some { breq with status := ReqStatus.accepted, responded_date := some now } ∧
              (∀ r ∈ db.buy_requests, ¬ r.id = breq.id → r.item_id = breq.item_id →
                r.status = ReqStatus.pending →
                { r with status := ReqStatus.rejected, responded_date := some now } ∈
                  db'.buy_requests) ∧
              db'.transactions = db.transactions ++
                [{ id := newTxId, item_id := breq.item_id, buyer_id := breq.buyer_id,
                   seller_id := breq.seller_id, conversation_id := breq.conversation_id,
                   buy_request_id := some breq.id, status := TxStatus.in_progress,
                   buyer_confirmed := false, seller_confirmed := false,
                   buyer_cancel_confirmed := false, seller_cancel_confirmed := false,
                   meetup_time := none, meetup_place := none,
                   meetup_lat := none, meetup_lng := none, completed_date := none }] ∧
              findItem db' breq.item_id =
                some { item with status := ItemStatus.reserved }))) := by
  have hbid : breq.id = reqId := by
    have := List.find?_some hreq
    simpa using this
  refine ⟨?_, ?_, ?_⟩
  · intro hcs
    unfold accept_buy_request
    simp only [hreq]
    rw [if_pos (by simp [Ne.symm hcs])]
  · intro hcs hpend
    unfold accept_buy_request
    simp only [hreq]
    rw [if_neg (by simp [hcs]), if_pos (by simp [hpend])]
  · intro hcs hpend item hitem
    constructor
    · intro hnav
      unfold accept_buy_request
      simp only [hreq]
      rw [if_neg (by simp [hcs]), if_neg (by simp [hpend])]
      simp only [hitem]
      rw [if_pos (by simp [hnav])]
    · intro hav
      refine ⟨?_, ?_, ?_⟩
      · intro hsome
        unfold accept_buy_request
        simp only [hreq]
        rw [if_neg (by simp [hcs]), if_neg (by simp [hpend])]
        simp only [hitem]
        rw [if_neg (by simp [hav]), if_pos hsome]
      · intro hnone
        unfold accept_buy_request
        simp only [hreq]
        rw [if_neg (by simp [hcs]), if_neg (by simp [hpend])]
        simp only [hitem]
        rw [if_neg (by simp [hav]), if_neg (by simp [hnone])]
        rfl
      · intro hnone db' hok
        unfold accept_buy_request at hok
        simp only [hreq] at hok
        rw [if_neg (by simp [hcs]), if_neg (by simp [hpend])] at hok
        simp only [hitem] at hok
        rw [if_neg (by simp [hav]), if_neg (by simp [hnone])] at hok
        obtain rfl := Except.ok.inj hok
        refine ⟨?_, ?_, rfl, ?_⟩
        · show ((updateFirst (fun r => r.id == reqId)
            (fun r => { r with status := ReqStatus.accepted, responded_date := some now })
            db.buy_requests).map (fun r : BuyRequest =>
              if r.item_id == breq.item_id && r.status == ReqStatus.pending &&
                 !(r.id == breq.id)
              then { r with status := ReqStatus.rejected, responded_date := some now }
              else r)).find? (fun r => r.id == reqId) = _
          have hq : ∀ a : BuyRequest, (((fun r : BuyRequest =>
              if r.item_id == breq.item_id && r.status == ReqStatus.pending &&
                 !(r.id == breq.id)
              then { r with status := ReqStatus.rejected, responded_date := some now }
              else r) a).id == reqId) = (a.id == reqId) := by
            intro a
            show ((if a.item_id == breq.item_id && a.status == ReqStatus.pending &&
                 !(a.id == breq.id)
              then { a with status := ReqStatus.rejected, responded_date := some now }
              else a).id == reqId) = (a.id == reqId)
            split <;> rfl
          rw [find?_map_pred hq]
          rw [@find?_updateFirst_of_found BuyRequest (fun r => r.id == reqId)
            (fun r => { r with status := ReqStatus.accepted, responded_date := some now })
            (fun a ha => ha) _ _ hreq]
          rw [Option.map_some']
          simp
        · intro r hr hnid hitem2 hpend2
          have hk : r ∈ updateFirst (fun x => x.id == reqId)
              (fun r => { r with status := ReqStatus.accepted, responded_date := some now })
              db.buy_requests :=
            mem_updateFirst (fun hp => by
              have hrid : r.id = reqId := by simpa using hp
              exact absurd (hrid.trans hbid.symm) hnid) hr
          have h2 := List.mem_map_of_mem (fun r : BuyRequest =>
            if r.item_id == breq.item_id && r.status == ReqStatus.pending &&
               !(r.id == breq.id)
            then { r with status := ReqStatus.rejected, responded_date := some now }
            else r) hk
          have he : (fun r : BuyRequest =>
              if r.item_id == breq.item_id && r.status == ReqStatus.pending &&
                 !(r.id == breq.id)
              then { r with status := ReqStatus.rejected, responded_date := some now }
              else r) r =
              { r with status := ReqStatus.rejected, responded_date := some now } := by
            show (if r.item_id == breq.item_id && r.status == ReqStatus.pending &&
                 !(r.id == breq.id)
              then { r with status := ReqStatus.rejected, responded_date := some now }
              else r) = _
            rw [if_pos (by simp [hitem2, hpend2, hnid])]
          rw [he] at h2
          exact h2
        · show (updateFirst (fun it => it.id == breq.item_id)
            (fun it => { it with status := ItemStatus.reserved }) db.items).find?
            (fun it => it.id == breq.item_id) = _
          exact @find?_updateFirst_of_found Item (fun it => it.id == breq.item_id)
            (fun it => { it with status := ItemStatus.reserved })
            (fun a ha => ha) _ _ hitem

/-- C2 witness: the seller accepts pending request `r1` for the available
item at tick 3. -/
theorem C2_accept_buy_request_witness :
    findReq c2dbAfter "r1" =
      some { c2req with status := ReqStatus.accepted, responded_date := some 3 } :=
  ((((@C2_accept_buy_request c2db 3 "s" "r1" "t9" c2req rfl).2.2
      rfl rfl c2item rfl).2 rfl).2.2 rfl c2dbAfter rfl).1

theorem atMostOneActive_push (db : DB) (req : BuyRequest)
    (hinv : atMostOneActive db)
    (hnone : hasActiveReq db req.item_id req.buyer_id = false) :
    ∀ i b : String,
      ((db.buy_requests ++ [req]).filter (activeReqPred i b)).length ≤ 1 := by
  intro i b
  rw [List.filter_append]
  by_cases hac : activeReqPred i b req = true
  · have hib : req.item_id = i ∧ req.buyer_id = b := by
      have h := hac
      unfold activeReqPred at h
      simp only [Bool.and_eq_true, beq_iff_eq] at h
      exact ⟨h.1.1, h.1.2⟩
    have hfnone : db.buy_requests.find? (activeReqPred req.item_id req.buyer_id) = none := by
      unfold hasActiveReq at hnone
      cases hf : db.buy_requests.find? (activeReqPred req.item_id req.buyer_id) with
      | none => rfl
      | some x => rw [hf] at hnone; simp at hnone
    have hff : db.buy_requests.filter (activeReqPred i b) = [] := by
      rw [List.filter_eq_nil_iff]
      intro x hx
      have := List.find?_eq_none.1 hfnone x hx
      rw [hib.1, hib.2] at this
      simpa using this
    rw [hff]
    simp [hac]
  · have hsr : List.filter (activeReqPred i b) [req] = [] := by
      simp [List.filter, hac]
    rw [hsr, List.append_nil]
    exact hinv i b

/-- C7: creating a buy request fails with the conflict errors when the buyer
is the item's seller, the item is not available, or a pending-or-accepted
request already exists for the (item, buyer) pair; consequently a successful
creation preserves the invariant that at most one pending-or-accepted request
exists per (item, buyer) pair. -/
theorem C7_create_buy_request
    {db : DB} {now : Nat} {caller : String} {payload : BuyRequestCreate}
    {newConvId newReqId newMsgId : String} {item : Item}
    (hitem : findItem db payload.item_id = some item) :
    (item.seller_id = caller →
      create_buy_request db now caller payload newConvId newReqId newMsgId =
        .error (400, "You cannot request to buy your own item")) ∧
    (¬ item.seller_id = caller → ¬ item.status = ItemStatus.available →
      create_buy_request db now caller payload newConvId newReqId newMsgId =
        .error (400, "Item is " ++ itemStatusStr item.status ++
          " and cannot be requested")) ∧
    (¬ item.seller_id = caller → item.status = ItemStatus.available →
      hasActiveReq db payload.item_id caller = true →
      create_buy_request db now caller payload newConvId newReqId newMsgId =
        .error (400, "You already have a pending or accepted request for this item")) ∧
    (atMostOneActive db →
      ∀ rq db', create_buy_request db now caller payload newConvId newReqId newMsgId =
        .ok (rq, db') → atMostOneActive db') := by
  have hiid : item.id = payload.item_id := by
    have := List.find?_some hitem
    simpa using this
  refine ⟨?_, ?_, ?_, ?_⟩
  · intro hsc
    unfold create_buy_request
    simp only [hitem]
    rw [if_pos (by simp [hsc])]
  · intro hsc hnav
    unfold create_buy_request
    simp only [hitem]
    rw [if_neg (by simp [hsc]), if_pos (by simp [hnav])]
  · intro hsc hav hdup
    unfold create_buy_request
    simp only [hitem]
    rw [if_neg (by simp [hsc]), if_neg (by simp [hav]), if_pos hdup]
  · intro hinv rq db' hok
    unfold create_buy_request at hok
    simp only [hitem] at hok
    cases h1 : (item.seller_id == caller) with
    | true => simp [h1] at hok
    | false =>
      cases h2 : (!(item.status == ItemStatus.available)) with
      | true => rw [h1] at hok; simp [h2] at hok
      | false =>
        cases h3 : hasActiveReq db payload.item_id caller with
        | true => rw [h1, h2] at hok; simp [h3] at hok
        | false =>
          simp only [h1, h2, h3, Bool.false_eq_true, if_false] at hok
          have hp := Except.ok.inj hok
          have hdb : db' = _ := (congrArg Prod.snd hp).symm
          subst hdb
          intro i b
          refine atMostOneActive_push db _ hinv ?_ i b
          show hasActiveReq db item.id caller = false
          rw [hiid]
          exact h3

/-- C7 witness: the buyer's second request for the same item, while the
first is still pending, is rejected with the duplicate-request conflict. -/
theorem C7_create_buy_request_witness :
    create_buy_request c2db 4 "b" c7payload "cN" "rN" "mN" =
      .error (400, "You already have a pending or accepted request for this item") :=
  (@C7_create_buy_request c2db 4 "b" c7payload "cN" "rN" "mN" c2item rfl).2.2.1
    (by decide) rfl rfl

/-- C4 counterexample: the seller's manual status update sets the item to
`reserved` while the state contains no transaction at all, so the system does
set `reserved` without a corresponding live transaction. -/
theorem C4_manual_reserved_counterexample :
    update_item_status c4db "s" "i9" "reserved" = .ok c4dbAfter ∧
    findItem c4dbAfter "i9" = some { c4item with status := ItemStatus.reserved } ∧
    c4dbAfter.transactions = [] :=
  ⟨rfl, rfl, rfl⟩

/-- C4 (amended): the seller's manual item-status update applies any status in
the allowed set unconditionally — it checks only that the status string is
allowed and the caller is the seller, consults no transaction, and leaves the
transactions table unchanged, so a reserved or sold item with no
corresponding transaction can be produced. -/
theorem C4_item_status_no_guard
    {db : DB} {caller itemId newStatus : String} {item : Item}
    (hitem : findItem db itemId = some item) :
    (¬ allowedItemStatuses.contains newStatus = true →
      update_item_status db caller itemId newStatus =
        .error (400, "Invalid status. Allowed: available, reserved, sold")) ∧
    (allowedItemStatuses.contains newStatus = true → ¬ item.seller_id = caller →
      update_item_status db caller itemId newStatus =
        .error (403, "You can only update your own listings")) ∧
    (allowedItemStatuses.contains newStatus = true → item.seller_id = caller →
      ∀ db', update_item_status db caller itemId newStatus = .ok db' →
        db'.transactions = db.transactions ∧
        findItem db' itemId = some { item with status := parseItemStatus newStatus }) ∧
    (allowedItemStatuses.contains newStatus = true → item.seller_id = caller →
      (update_item_status db caller itemId newStatus).isOk = true) := by
  refine ⟨?_, ?_, ?_, ?_⟩
  · intro h
    unfold update_item_status
    rw [if_pos (by simpa using h)]
  · intro ha hns
    unfold update_item_status
    rw [if_neg (by simpa using ha)]
    simp only [hitem]
    rw [if_pos (by simp [hns])]
  · intro ha hs db' hok
    unfold update_item_status at hok
    rw [if_neg (by simpa using ha)] at hok
    simp only [hitem] at hok
    rw [if_neg (by simp [hs])] at hok
    obtain rfl := Except.ok.inj hok
    refine ⟨rfl, ?_⟩
    exact @find?_updateFirst_of_found Item (fun it => it.id == itemId)
      (fun it => { it with status := parseItemStatus newStatus })
      (fun a ha => ha) _ _ hitem
  · intro ha hs
    unfold update_item_status
    rw [if_neg (by simpa using ha)]
    simp only [hitem]
    rw [if_neg (by simp [hs])]
    rfl

/-- C4 witness (for the amended claim): setting `reserved` manually succeeds
and leaves the empty transactions table unchanged. -/
theorem C4_item_status_no_guard_witness :
    c4dbAfter.transactions = c4db.transactions ∧
    findItem c4dbAfter "i9" = some { c4item with status := parseItemStatus "reserved" } :=
  (@C4_item_status_no_guard c4db "s" "i9" "reserved" c4item rfl).2.2.1
    rfl rfl c4dbAfter rfl

theorem find?_append_none {α : Type} {p : α → Bool} {l1 : List α}
    (h : l1.find? p = none) (l2 : List α) :
    (l1 ++ l2).find? p = l2.find? p := by
  induction l1 with
  | nil => rfl
  | cons x xs ih =>
    have hx : p x = false := by
      cases hpx : p x with
      | false => rfl
      | true => rw [List.find?_cons_of_pos _ hpx] at h; cases h
    have hxs : xs.find? p = none := by
      rw [List.find?_cons_of_neg _ (by simp [hx])] at h; exact h
    rw [List.cons_append, List.find?_cons_of_neg _ (by simp [hx]), ih hxs]

theorem ctwa_update_shape {db : DB} {now : Nat} {caller iid cid place mtime
    newTxId : String} {t0 : Transaction} {db' : DB}
    (hex : findPairTx db cid iid = some t0)
    (hok : create_transaction_with_appointment db now caller (some iid)
      (some cid) (some place) (some mtime) newTxId = .ok db') :
    db'.transactions = updateFirst (fun t => t.conversation_id == cid &&
        t.item_id == iid && t.status == TxStatus.in_progress)
      (fun t => { t with meetup_time := some mtime, meetup_place := some place })
      db.transactions := by
  unfold create_transaction_with_appointment at hok
  cases hc1 : (!(optTruthy (some iid)) || !(optTruthy (some cid))) with
  | true => simp [hc1] at hok
  | false =>
    cases hc2 : (!(optTruthy (some place)) || !(optTruthy (some mtime))) with
    | true => simp [hc1, hc2] at hok
    | false =>
      simp only [hc1, hc2, Bool.false_eq_true, if_false, optGetD] at hok
      cases hi : findItem db iid with
      | none => simp [hi] at hok
      | some item =>
        simp only [hi] at hok
        cases hcv : findConv db cid with
        | none => simp [hcv] at hok
        | some conv =>
          simp only [hcv] at hok
          cases hp : (!(caller == conv.participant1_id ||
              caller == conv.participant2_id)) with
          | true => simp [hp] at hok
          | false =>
            cases hci : (!(conv.item_id == iid)) with
            | true => rw [hp] at hok; simp [hci] at hok
            | false =>
              simp only [hp, hci, Bool.false_eq_true, if_false, hex] at hok
              cases hauth : (!(caller == t0.buyer_id || caller == t0.seller_id)) with
              | true => simp [hauth] at hok
              | false =>
                simp only [hauth, Bool.false_eq_true, if_false] at hok
                obtain rfl := Except.ok.inj hok
                rfl

theorem ctwa_create_shape {db : DB} {now : Nat} {caller iid cid place mtime
    newTxId : String} {db' : DB}
    (hnone : findPairTx db cid iid = none)
    (hok : create_transaction_with_appointment db now caller (some iid)
      (some cid) (some place) (some mtime) newTxId = .ok db') :
    ∃ t : Transaction, db'.transactions = db.transactions ++ [t] ∧
      t.conversation_id = cid ∧ t.item_id = iid ∧
      t.status = TxStatus.in_progress ∧ t.id = newTxId ∧
      t.meetup_place = some place ∧ t.meetup_time = some mtime := by
  unfold create_transaction_with_appointment at hok
  cases hc1 : (!(optTruthy (some iid)) || !(optTruthy (some cid))) with
  | true => simp [hc1] at hok
  | false =>
    cases hc2 : (!(optTruthy (some place)) || !(optTruthy (some mtime))) with
    | true => simp [hc1, hc2] at hok
    | false =>
      simp only [hc1, hc2, Bool.false_eq_true, if_false, optGetD] at hok
      cases hi : findItem db iid with
      | none => simp [hi] at hok
      | some item =>
        simp only [hi] at hok
        cases hcv : findConv db cid with
        | none => simp [hcv] at hok
        | some conv =>
          simp only [hcv] at hok
          cases hp : (!(caller == conv.participant1_id ||
              caller == conv.participant2_id)) with
          | true => simp [hp] at hok
          | false =>
            cases hci : (!(conv.item_id == iid)) with
            | true => rw [hp] at hok; simp [hci] at hok
            | false =>
              simp only [hp, hci, Bool.false_eq_true, if_false, hnone] at hok
              cases hav : (!(item.status == ItemStatus.available)) with
              | true => simp [hav] at hok
              | false =>
                simp only [hav, Bool.false_eq_true, if_false] at hok
                obtain rfl := Except.ok.inj hok
                refine ⟨_, rfl, rfl, rfl, rfl, rfl, rfl, rfl⟩

/-- C5: starting from a state with no transaction row for the
(conversation, item) pair, two create-appointment calls with the same pair
and different meetup details leave exactly one transaction row for the pair,
still in progress with the first call's id, and its meetup fields hold the
details of the latest call. -/
theorem C5_appointment_idempotent
    {db : DB} {now1 now2 : Nat}
    {caller1 caller2 iid cid place1 mtime1 place2 mtime2 newTxId1 newTxId2 : String}
    {db1 db2 : DB}
    (hpair0 : db.transactions.filter
      (fun t => t.conversation_id == cid && t.item_id == iid) = [])
    (h1 : create_transaction_with_appointment db now1 caller1 (some iid)
      (some cid) (some place1) (some mtime1) newTxId1 = .ok db1)
    (h2 : create_transaction_with_appointment db1 now2 caller2 (some iid)
      (some cid) (some place2) (some mtime2) newTxId2 = .ok db2) :
    (db2.transactions.filter
      (fun t => t.conversation_id == cid && t.item_id == iid)).length = 1 ∧
    (∀ t ∈ db2.transactions,
      (t.conversation_id == cid && t.item_id == iid) = true →
      t.meetup_place = some place2 ∧ t.meetup_time = some mtime2 ∧
      t.status = TxStatus.in_progress ∧ t.id = newTxId1) := by
  have hp2of3 : ∀ x : Transaction,
      (x.conversation_id == cid && x.item_id == iid &&
        x.status == TxStatus.in_progress) = true →
      (x.conversation_id == cid && x.item_id == iid) = true := by
    intro x hx
    simp only [Bool.and_eq_true] at hx ⊢
    exact hx.1
  have hall0 : ∀ x ∈ db.transactions,
      ¬ (x.conversation_id == cid && x.item_id == iid) = true := by
    intro x hx
    have := List.filter_eq_nil_iff.1 hpair0 x hx
    simpa using this
  have hnone : findPairTx db cid iid = none := by
    unfold findPairTx
    rw [List.find?_eq_none]
    intro x hx hpx
    exact hall0 x hx (hp2of3 x hpx)
  obtain ⟨t, hT1, htc, hti2, hts, htid, htp, htt⟩ := ctwa_create_shape hnone h1
  have hp3t : (t.conversation_id == cid && t.item_id == iid &&
      t.status == TxStatus.in_progress) = true := by
    simp [htc, hti2, hts]
  have hfind0 : db.transactions.find? (fun x => x.conversation_id == cid &&
      x.item_id == iid && x.status == TxStatus.in_progress) = none := by
    rw [List.find?_eq_none]
    intro x hx hpx
    exact hall0 x hx (hp2of3 x hpx)
  have hpair1 : findPairTx db1 cid iid = some t := by
    unfold findPairTx
    rw [hT1, find?_append_none hfind0 [t]]
    exact List.find?_cons_of_pos _ hp3t
  have hupd := ctwa_update_shape hpair1 h2
  rw [hT1] at hupd
  rw [updateFirst_append_none db.transactions [t]
    (fun x hx => by
      cases hpx : (x.conversation_id == cid && x.item_id == iid &&
          x.status == TxStatus.in_progress) with
      | false => rfl
      | true => exact absurd (hp2of3 x hpx) (hall0 x hx))] at hupd
  have hcons := @updateFirst_cons_pos Transaction
    (fun x => x.conversation_id == cid && x.item_id == iid &&
      x.status == TxStatus.in_progress)
    (fun x => { x with meetup_time := some mtime2, meetup_place := some place2 })
    t [] (by exact hp3t)
  rw [hcons] at hupd
  constructor
  · rw [hupd, List.filter_append, hpair0, List.nil_append]
    have : (t.conversation_id == cid && t.item_id == iid) = true := hp2of3 t hp3t
    simp [List.filter, this]
  · intro x hx hpx
    rw [hupd] at hx
    rcases List.mem_append.1 hx with hmem | hmem
    · exact absurd hpx (hall0 x hmem)
    · have : x = { t with meetup_time := some mtime2, meetup_place := some place2 } := by
        simpa using hmem
      subst this
      exact ⟨rfl, rfl, hts, htid⟩

/-- C5 witness: two create-appointment calls for (item `i1`, conversation
`c1`) with different details leave exactly one transaction row for the pair. -/
theorem C5_appointment_idempotent_witness :
    (c5db2.transactions.filter
      (fun t => t.conversation_id == "c1" && t.item_id == "i1")).length = 1 :=
  (@C5_appointment_idempotent c5db 1 2 "b" "s" "i1" "c1" "CAS lobby"
    "2025-01-01T10:00:00" "GSU" "2025-01-02T11:00:00" "tA" "tB" c5db1 c5db2
    rfl rfl rfl).1

theorem updateFirst_of_none {α : Type} {p : α → Bool} {f : α → α}
    {l : List α} (h : l.find? p = none) : updateFirst p f l = l := by
  induction l with
  | nil => rfl
  | cons x xs ih =>
    have hx : p x = false := by
      cases hpx : p x with
      | false => rfl
      | true => rw [List.find?_cons_of_pos _ hpx] at h; cases h
    have hxs : xs.find? p = none := by
      rw [List.find?_cons_of_neg _ (by simp [hx])] at h; exact h
    rw [updateFirst_cons_neg hx, ih hxs]

theorem calculate_user_rating_congr {db db2 : DB}
    (h : db.reviews = db2.reviews) (uid : String) :
    calculate_user_rating db uid = calculate_user_rating db2 uid := by
  unfold calculate_user_rating
  rw [h]

theorem rating_set_invariant {users : List User} {uid : String} {q : ℚ} {u : User}
    (hu : (updateFirst (fun v => v.id == uid) (fun v => { v with rating := q })
      users).find? (fun v => v.id == uid) = some u) :
    u.rating = q := by
  cases h0 : users.find? (fun v => v.id == uid) with
  | none =>
    rw [updateFirst_of_none h0] at hu
    rw [h0] at hu
    cases hu
  | some u0 =>
    have h1 := @find?_updateFirst_of_found User (fun v => v.id == uid)
      (fun v => { v with rating := q }) (fun a ha => ha) users u0 h0
    rw [h1] at hu
    have h2 := Option.some.inj hu
    rw [← h2]

theorem create_review_shape {db : DB} {now : Nat} {caller tid : String}
    {rating : ℤ} {comment : Option String} {nid : String} {rv : Review} {db1 : DB}
    (hc : create_review db now caller tid rating comment nid = .ok (rv, db1)) :
    rv.id = nid ∧
    db1.reviews = db.reviews ++ [rv] ∧
    db1.users = updateFirst (fun v => v.id == rv.reviewee_id)
      (fun v => { v with rating := calculate_user_rating { db with reviews := db.reviews ++ [rv] } rv.reviewee_id }) db.users := by
  unfold create_review at hc
  split at hc
  · cases hc
  · split at hc
    · cases hc
    · split at hc
      · cases hc
      · split at hc
        · cases hc
        · simp only [] at hc
          split at hc
          · cases hc
          · simp only [Except.ok.injEq, Prod.mk.injEq] at hc
            obtain ⟨hrv, hdb⟩ := hc
            subst hrv
            subst hdb
            exact ⟨rfl, rfl, rfl⟩

theorem delete_review_shape {db1 : DB} {caller rid : String} {rv : Review}
    {db2 : DB} (hf : findReview db1 rid = some rv)
    (hd : delete_review db1 caller rid = .ok db2) :
    db2.reviews = removeFirst (fun x => x.id == rid) db1.reviews ∧
    db2.users = updateFirst (fun v => v.id == rv.reviewee_id)
      (fun v => { v with rating := calculate_user_rating { db1 with reviews := removeFirst (fun x => x.id == rid) db1.reviews } rv.reviewee_id }) db1.users := by
  unfold delete_review at hd
  simp only [hf] at hd
  cases ha : (!(rv.reviewer_id == caller)) with
  | true => simp [ha] at hd
  | false =>
    simp only [ha, Bool.false_eq_true, if_false] at hd
    obtain rfl := Except.ok.inj hd
    exact ⟨rfl, rfl⟩

/-- C9: after `create_review` the reviewee's persisted rating equals
`calculate_user_rating` of the post-state (the rounded mean of all reviews
naming them, `0` if none), likewise after `delete_review`; and creating a
review and then deleting that same review restores the review table, so a
reviewee whose persisted rating satisfied the rating law before the creation
gets their exact user row back. -/
theorem C9_rating_round_trip
    {db : DB} {now : Nat} {caller tid : String} {rating : ℤ}
    {comment : Option String} {nid : String} {rv : Review} {db1 db2 : DB}
    (hfresh : ∀ r ∈ db.reviews, (r.id == nid) = false)
    (hc : create_review db now caller tid rating comment nid = .ok (rv, db1))
    (hd : delete_review db1 caller rv.id = .ok db2) :
    (∀ u, findUser db1 rv.reviewee_id = some u →
      u.rating = calculate_user_rating db1 rv.reviewee_id) ∧
    (∀ u, findUser db2 rv.reviewee_id = some u →
      u.rating = calculate_user_rating db2 rv.reviewee_id) ∧
    db2.reviews = db.reviews ∧
    (∀ u0, findUser db rv.reviewee_id = some u0 →
      u0.rating = calculate_user_rating db rv.reviewee_id →
      findUser db2 rv.reviewee_id = some u0) := by
  obtain ⟨hid, hrev1, husers1⟩ := create_review_shape hc
  have h0 : db.reviews.find? (fun x => x.id == nid) = none := by
    rw [List.find?_eq_none]
    intro x hx
    simp [hfresh x hx]
  have hfind1 : findReview db1 rv.id = some rv := by
    unfold findReview
    rw [hrev1, hid]
    rw [find?_append_none h0 [rv]]
    exact List.find?_cons_of_pos _ (by simp [hid])
  obtain ⟨hrev2, husers2⟩ := delete_review_shape hfind1 hd
  have hrem : removeFirst (fun x => x.id == rv.id) db1.reviews = db.reviews := by
    rw [hrev1]
    rw [removeFirst_append_none db.reviews [rv]
      (fun x hx => by rw [hid]; exact hfresh x hx)]
    rw [removeFirst_cons_pos (by simp)]
    exact List.append_nil _
  have hcalc1 : calculate_user_rating { db with reviews := db.reviews ++ [rv] }
      rv.reviewee_id = calculate_user_rating db1 rv.reviewee_id :=
    calculate_user_rating_congr (by rw [hrev1]) _
  have hcalc2 : calculate_user_rating
      { db1 with reviews := removeFirst (fun x => x.id == rv.id) db1.reviews }
      rv.reviewee_id = calculate_user_rating db2 rv.reviewee_id :=
    calculate_user_rating_congr (by rw [hrev2]) _
  have hq : calculate_user_rating
      { db1 with reviews := removeFirst (fun x => x.id == rv.id) db1.reviews }
      rv.reviewee_id = calculate_user_rating db rv.reviewee_id :=
    calculate_user_rating_congr (by exact hrem) _
  refine ⟨?_, ?_, hrev2.trans hrem, ?_⟩
  · intro u hu
    rw [← hcalc1]
    have hu2 := hu
    unfold findUser at hu2
    rw [husers1] at hu2
    exact rating_set_invariant hu2
  · intro u hu
    rw [← hcalc2]
    have hu2 := hu
    unfold findUser at hu2
    rw [husers2] at hu2
    exact rating_set_invariant hu2
  · intro u0 hu0 hu0r
    have hu1 := hu0
    unfold findUser at hu1
    have step1 := @find?_updateFirst_of_found User (fun v => v.id == rv.reviewee_id)
      (fun v => { v with rating := calculate_user_rating { db with reviews := db.reviews ++ [rv] } rv.reviewee_id })
      (fun a ha => ha) db.users u0 hu1
    rw [← husers1] at step1
    have step2 := @find?_updateFirst_of_found User (fun v => v.id == rv.reviewee_id)
      (fun v => { v with rating := calculate_user_rating { db1 with reviews := removeFirst (fun x => x.id == rv.id) db1.reviews } rv.reviewee_id })
      (fun a ha => ha) _ _ step1
    unfold findUser
    rw [husers2, step2, hq, ← hu0r]

/-- C9 witness: creating review `rv1` on completed transaction `t5` and then
deleting it restores the seller's exact user row. -/
theorem C9_rating_round_trip_witness :
    findUser c9db2 c9rv.reviewee_id = some wSeller :=
  (@C9_rating_round_trip c9db 3 "b" "t5" 5 none "rv1" c9rv c9db1 c9db2
    (fun r hr => absurd hr (List.not_mem_nil r)) rfl rfl).2.2.2
    wSeller rfl rfl

end BuTrift
